import Mathlib

/-!
# ZrtpCWrapper: the C call surface over the ZRTP engine

A shallow embedding of `src/zrtp/ZrtpCWrapper.cpp`.

* Nullable pointers are `Option Addr`; `none` is `NULL`.
* Objects created with `new` live in a heap of cells addressed by their index; `delete`
  turns a cell into `Obj.freed`.  Reading through a null, released or wild pointer is
  undefined behaviour in C++ and is a `Fault` here.
* The protocol engine (`ZRtp`), the configuration object (`ZrtpConfigure`), the algorithm
  tables (`EnumBase`) and the identity cache (`ZIDCache`) are not part of this file of the
  repository.  They are taken as parameters: a state type with one function per method the
  wrapper invokes.
* `World.trace` is ghost state: it records, in order, every engine construction, every
  engine method invocation, every `delete` and every `open` of the identity cache.
-/

namespace ZrtpCWrapper

/-- One octet (`uint8_t`, or one `char` of a `std::string`). -/
abbrev Byte := Fin 256

/-- Heap address of an object created with `new`. -/
abbrev Addr := Nat

/-- Undefined behaviour made explicit. -/
inductive Fault
  | nullDeref
  | useAfterFree
  | badPointer
  | outOfBounds
  deriving DecidableEq, Repr

/-- The C struct `ZrtpContext`: three owned pointers and the opaque host pointer. -/
structure ZrtpContext where
  configure : Option Addr
  zrtpEngine : Option Addr
  zrtpCallback : Option Addr
  userData : Option Nat
  deriving DecidableEq, Repr

/-- The callback bridge: it stores the arguments of `new ZrtpCallbackWrapper(cb, ctx)`. -/
structure ZrtpCallbackWrapper where
  cb : Option Nat
  ctx : Option Addr
  deriving DecidableEq, Repr

/-- A heap cell. -/
inductive Obj (E C : Type)
  | context (c : ZrtpContext)
  | engine (e : E)
  | callback (c : ZrtpCallbackWrapper)
  | configure (c : C)
  | freed

/-- The kinds of object the wrapper releases with `delete`. -/
inductive Resource
  | engine
  | callback
  | configure
  | context
  deriving DecidableEq, Repr

/-- An invocation of a method of the engine, with its arguments. -/
inductive Call
  | startZrtpEngine
  | stopZrtp
  | processZrtpMessage (extHeader : Option (List Byte)) (peerSSRC : Nat) (length : Nat)
  | processTimeout
  | setAuxSecret (data : Option (List Byte)) (length : Int)
  | inState (state : Int)
  | SASVerified
  | resetSASVerified
  | getHelloHash (index : Int)
  | getPeerHelloHash
  | getMultiStrParams
  | setMultiStrParams (str : List Byte)
  | isMultiStream
  | isMultiStreamAvailable
  | acceptEnrollment (accepted : Bool)
  | isEnrollmentMode
  | setEnrollmentMode (enrollmentMode : Bool)
  | isPeerEnrolled
  | sendSASRelayPacket (sh : Option (List Byte)) (render : String)
  | getSasType
  | getSasHash
  | setSignatureData (data : Option (List Byte)) (length : Int)
  | getSignatureData
  | getSignatureLength
  | conf2AckSecure
  | getPeerZid (data : List Byte)
  | getNumberSupportedVersions
  | getCurrentProtocolVersion
  deriving DecidableEq, Repr

/-- Ghost events, in program order. -/
inductive Event
  | construct (zid : List Byte) (callback : Option Addr) (clientId : String)
      (configure : Option Addr) (mitm : Bool)
  | call (engine : Addr) (c : Call)
  | delete (r : Resource) (a : Addr)
  | zidOpen (path : String)
  deriving DecidableEq, Repr

/-- The methods of the engine class `ZRtp` that the wrapper invokes, over an engine state `E`.
Every method may change the engine state. -/
structure ZRtp (E : Type) where
  new : List Byte → Option Addr → String → Option Addr → Bool → E
  startZrtpEngine : E → Unit × E
  stopZrtp : E → Unit × E
  processZrtpMessage : Option (List Byte) → Nat → Nat → E → Unit × E
  processTimeout : E → Unit × E
  setAuxSecret : Option (List Byte) → Int → E → Unit × E
  inState : Int → E → Bool × E
  SASVerified : E → Unit × E
  resetSASVerified : E → Unit × E
  getHelloHash : Int → E → List Byte × E
  getPeerHelloHash : E → List Byte × E
  getMultiStrParams : E → List Byte × E
  setMultiStrParams : List Byte → E → Unit × E
  isMultiStream : E → Bool × E
  isMultiStreamAvailable : E → Bool × E
  acceptEnrollment : Bool → E → Unit × E
  isEnrollmentMode : E → Bool × E
  setEnrollmentMode : Bool → E → Unit × E
  isPeerEnrolled : E → Bool × E
  sendSASRelayPacket : Option (List Byte) → String → E → Bool × E
  getSasType : E → List Byte × E
  getSasHash : E → Option (List Byte) × E
  setSignatureData : Option (List Byte) → Int → E → Bool × E
  getSignatureData : E → Option (List Byte) × E
  getSignatureLength : E → Int × E
  conf2AckSecure : E → Unit × E
  getPeerZid : List Byte → E → (Int × List Byte) × E
  getNumberSupportedVersions : E → Int × E
  getCurrentProtocolVersion : E → Int × E

/-- The methods of the identity cache (`getZidCacheInstance()`) that the wrapper invokes. -/
structure ZIDCache (Z : Type) where
  isOpen : Z → Bool
  openFile : String → Z → Int × Z
  getZid : Z → List Byte

/-- The process state the wrapper works on. -/
structure World (E C Z : Type) where
  heap : List (Obj E C)
  zidCache : Z
  home : Option String
  trace : List Event

variable {E C Z : Type}

/-- Allocation with `new`: the object goes to a fresh cell at the end of the heap. -/
def alloc (w : World E C Z) (o : Obj E C) : Addr × World E C Z :=
  (w.heap.length, { w with heap := w.heap ++ [o] })

/-- Reading `*zrtpContext`. -/
def derefContext (w : World E C Z) (zrtpContext : Option Addr) : Except Fault ZrtpContext :=
  match zrtpContext with
  | none => .error .nullDeref
  | some a =>
    match w.heap[a]? with
    | some (.context c) => .ok c
    | some .freed => .error .useAfterFree
    | _ => .error .badPointer

/-- Assigning to fields of `*zrtpContext`. -/
def modifyContext (w : World E C Z) (zrtpContext : Option Addr)
    (f : ZrtpContext → ZrtpContext) : Except Fault (World E C Z) :=
  match zrtpContext with
  | none => .error .nullDeref
  | some a =>
    match w.heap[a]? with
    | some (.context c) => .ok { w with heap := w.heap.set a (.context (f c)) }
    | some .freed => .error .useAfterFree
    | _ => .error .badPointer

/-- Source `getEngine`: the engine pointer of the context, `NULL` for a `NULL` context. -/
def getEngine (w : World E C Z) (zrtpContext : Option Addr) : Except Fault (Option Addr) :=
  match zrtpContext with
  | some a => (derefContext w (some a)).map (fun c => c.zrtpEngine)
  | none => .ok none

/-- Source `getCallback`. -/
def getCallback (w : World E C Z) (zrtpContext : Option Addr) : Except Fault (Option Addr) :=
  match zrtpContext with
  | some a => (derefContext w (some a)).map (fun c => c.zrtpCallback)
  | none => .ok none

/-- Source `getConfig`. -/
def getConfig (w : World E C Z) (zrtpContext : Option Addr) : Except Fault (Option Addr) :=
  match zrtpContext with
  | some a => (derefContext w (some a)).map (fun c => c.configure)
  | none => .ok none

/-- Source `zrtp_CreateWrapper`.  The three owned pointers are set to 0; `userData` is left
uninitialised by the source, its indeterminate value is the argument `uninit`. -/
def zrtp_CreateWrapper (w : World E C Z) (uninit : Option Nat) : Option Addr × World E C Z :=
  let (zc, w1) := alloc w (.context
    { configure := none, zrtpEngine := none, zrtpCallback := none, userData := uninit })
  (some zc, w1)

/-- Source `zrtp_initZidFile`: opens the identity cache unless it is already open; without a
file name the path is built from the environment variable `HOME`. -/
def zrtp_initZidFile (zc : ZIDCache Z) (w : World E C Z) (zidFilename : Option String) :
    Int × World E C Z :=
  let zf := w.zidCache
  if !zc.isOpen zf then
    let zidFilename1 : String :=
      match zidFilename with
      | none =>
        let baseDir : String :=
          match w.home with
          | some home => home ++ "/."
          | none => "."
        baseDir ++ "GNUccRTP.zid"
      | some f => f
    let r := zc.openFile zidFilename1 zf
    (r.1, { w with zidCache := r.2, trace := w.trace ++ [.zidOpen zidFilename1] })
  else
    (0, w)

/-- The algorithm categories of the C header (`zrtp_AlgoTypes`); `invalid` stands for any
other integer value, the `default` branch of the switch in `getEnumBase`. -/
inductive zrtp_AlgoTypes
  | zrtp_HashAlgorithm
  | zrtp_CipherAlgorithm
  | zrtp_PubKeyAlgorithm
  | zrtp_SasType
  | zrtp_AuthLength
  | invalid (n : Int)
  deriving DecidableEq, Repr

/-- The global algorithm tables. -/
inductive EnumBase
  | zrtpHashes
  | zrtpSymCiphers
  | zrtpPubKeys
  | zrtpSasTypes
  | zrtpAuthLengths
  deriving DecidableEq, Repr

/-- The methods of `ZrtpConfigure` and of the algorithm tables that the wrapper invokes, over a
configuration state `C` and an algorithm descriptor type `A` (`AlgorithmEnum`). -/
structure ZrtpConfigure (C A : Type) where
  new : C
  setStandardConfig : C → Unit × C
  setMandatoryOnly : C → Unit × C
  addAlgo : zrtp_AlgoTypes → A → C → Int × C
  addAlgoAt : zrtp_AlgoTypes → A → Int → C → Int × C
  removeAlgo : zrtp_AlgoTypes → A → C → Int × C
  getNumConfiguredAlgos : zrtp_AlgoTypes → C → Int × C
  getAlgoAt : zrtp_AlgoTypes → Int → C → A × C
  containsAlgo : zrtp_AlgoTypes → A → C → Bool × C
  setTrustedMitM : Bool → C → Unit × C
  isTrustedMitM : C → Bool × C
  setSasSignature : Bool → C → Unit × C
  isSasSignature : C → Bool × C
  getByName : EnumBase → Option String → A
  getName : A → Option String

variable {A : Type}

/-- Invoking a method `m` of the configuration object at `configure`. -/
def callConfig {α : Type} (w : World E C Z) (configure : Addr) (m : C → α × C) :
    Except Fault (α × World E C Z) :=
  match w.heap[configure]? with
  | some (.configure c) => .ok ((m c).1, { w with heap := w.heap.set configure (.configure (m c).2) })
  | some .freed => .error .useAfterFree
  | _ => .error .badPointer

/-- Invoking a method `m` of the engine at `engine`; the invocation `c` is recorded. -/
def callEngine {α : Type} (w : World E C Z) (engine : Addr) (c : Call) (m : E → α × E) :
    Except Fault (α × World E C Z) :=
  match w.heap[engine]? with
  | some (.engine e) =>
    .ok ((m e).1, { w with heap := w.heap.set engine (.engine (m e).2),
                           trace := w.trace ++ [.call engine c] })
  | some .freed => .error .useAfterFree
  | _ => .error .badPointer

/-- Source `zrtp_initializeZrtpEngine`.  `std::string clientIdString(id)` comes first and needs
a non-null `id`.  The local `configure` starts as `NULL` and is assigned only in the branch that
creates a configuration. -/
def zrtp_initializeZrtpEngine (zr : ZRtp E) (cf : ZrtpConfigure C A) (zc : ZIDCache Z)
    (w : World E C Z) (zrtpContext : Option Addr) (cb : Option Nat) (id : Option String)
    (zidFilename : Option String) (userData : Option Nat) (mitmMode : Int) :
    Except Fault (World E C Z) :=
  let configure0 : Option Addr := none
  match id with
  | none => .error .nullDeref
  | some clientIdString => do
    let (cbAddr, w1) := alloc w (.callback { cb := cb, ctx := zrtpContext })
    let callback := some cbAddr
    let w2 ← modifyContext w1 zrtpContext (fun c => { c with zrtpCallback := callback })
    let w3 ← modifyContext w2 zrtpContext (fun c => { c with userData := userData })
    let c ← derefContext w3 zrtpContext
    let (configure, w4) ←
      match c.configure with
      | none => do
        let (cfAddr, v1) := alloc w3 (.configure cf.new)
        let v2 ← modifyContext v1 zrtpContext (fun c => { c with configure := some cfAddr })
        let (_, v3) ← callConfig v2 cfAddr cf.setStandardConfig
        pure (some cfAddr, v3)
      | some _ => pure (configure0, w3)
    let w5 := (zrtp_initZidFile zc w4 zidFilename).2
    let myZid := zc.getZid w5.zidCache
    let mitm : Bool := if mitmMode = 0 then false else true
    let (eAddr, w6) := alloc w5 (.engine (zr.new myZid callback clientIdString configure mitm))
    let w7 :=
      { w6 with trace := w6.trace ++ [.construct myZid callback clientIdString configure mitm] }
    modifyContext w7 zrtpContext (fun c => { c with zrtpEngine := some eAddr })

/-- The kind of a live heap cell. -/
def Obj.resource : Obj E C → Option Resource
  | .context _ => some .context
  | .engine _ => some .engine
  | .callback _ => some .callback
  | .configure _ => some .configure
  | .freed => none

/-- The C++ `delete` of the object of kind `r` at address `a`; the release is recorded. -/
def deleteObj (w : World E C Z) (r : Resource) (a : Addr) : Except Fault (World E C Z) :=
  match w.heap[a]? with
  | none => .error .badPointer
  | some o =>
    match o.resource with
    | none => .error .useAfterFree
    | some k =>
      if k = r then
        .ok { w with heap := w.heap.set a .freed, trace := w.trace ++ [.delete r a] }
      else .error .badPointer

/-- One block of `zrtp_DestroyWrapper`, `if (p) { delete p; zrtpContext->field = NULL; }`, for
the pointer `p` read before and the assignment `clear` to its field. -/
def deleteAndClear (w : World E C Z) (zrtpContext : Option Addr) (r : Resource)
    (p : Option Addr) (clear : ZrtpContext → ZrtpContext) : Except Fault (World E C Z) :=
  match p with
  | some x => do
    let v ← deleteObj w r x
    modifyContext v zrtpContext clear
  | none => pure w

/-- Source `zrtp_DestroyWrapper`: nothing for a `NULL` context; otherwise the three pointers are
read, the engine, the callback bridge and the configuration are deleted in this order when
present, and at the end the context itself is deleted. -/
def zrtp_DestroyWrapper (w : World E C Z) (zrtpContext : Option Addr) :
    Except Fault (World E C Z) :=
  match zrtpContext with
  | none => .ok w
  | some a => do
    let engine ← getEngine w zrtpContext
    let callback ← getCallback w zrtpContext
    let configure ← getConfig w zrtpContext
    let w1 ← deleteAndClear w zrtpContext .engine engine (fun c => { c with zrtpEngine := none })
    let w2 ← deleteAndClear w1 zrtpContext .callback callback
      (fun c => { c with zrtpCallback := none })
    let w3 ← deleteAndClear w2 zrtpContext .configure configure
      (fun c => { c with configure := none })
    deleteObj w3 .context a

/-- Source `zrtp_InitializeConfig`: a new, empty configuration is attached to the context. -/
def zrtp_InitializeConfig (cf : ZrtpConfigure C A) (w : World E C Z) (zrtpContext : Option Addr) :
    Except Fault (Int × World E C Z) := do
  let (cfAddr, w1) := alloc w (.configure cf.new)
  let w2 ← modifyContext w1 zrtpContext (fun c => { c with configure := some cfAddr })
  pure (1, w2)

/-- The C string a buffer holds after `strcpy(retval, s.c_str())`: the characters of `s` before
its first zero character (the terminator is not part of the string). -/
def strcpy (s : List Byte) : List Byte :=
  s.takeWhile (fun b => b != 0)

/-- Conversion of a `size_t` to `int32_t`, as in `*length = ret.size()`: the value modulo `2^32`
read as a two's complement number, so a size below `2^31` is kept. -/
def int32_of_size (n : Nat) : Int :=
  (((n + 2147483648) % 4294967296 : Nat) : Int) - 2147483648

/-- Source `zrtp_startZrtpEngine`. -/
def zrtp_startZrtpEngine (zr : ZRtp E) (w : World E C Z) (zrtpContext : Option Addr) :
    Except Fault (Unit × World E C Z) := do
  let engine ← getEngine w zrtpContext
  match engine with
  | some e => callEngine w e (.startZrtpEngine) (zr.startZrtpEngine)
  | none => pure ((), w)

/-- Source `zrtp_stopZrtpEngine`. -/
def zrtp_stopZrtpEngine (zr : ZRtp E) (w : World E C Z) (zrtpContext : Option Addr) :
    Except Fault (Unit × World E C Z) := do
  let engine ← getEngine w zrtpContext
  match engine with
  | some e => callEngine w e (.stopZrtp) (zr.stopZrtp)
  | none => pure ((), w)

/-- Source `zrtp_processZrtpMessage`. -/
def zrtp_processZrtpMessage (zr : ZRtp E) (w : World E C Z) (zrtpContext : Option Addr)
    (extHeader : Option (List Byte)) (peerSSRC : Nat) (length : Nat) :
    Except Fault (Unit × World E C Z) := do
  let engine ← getEngine w zrtpContext
  match engine with
  | some e => callEngine w e (.processZrtpMessage extHeader peerSSRC length) (zr.processZrtpMessage extHeader peerSSRC length)
  | none => pure ((), w)

/-- Source `zrtp_processTimeout`. -/
def zrtp_processTimeout (zr : ZRtp E) (w : World E C Z) (zrtpContext : Option Addr) :
    Except Fault (Unit × World E C Z) := do
  let engine ← getEngine w zrtpContext
  match engine with
  | some e => callEngine w e (.processTimeout) (zr.processTimeout)
  | none => pure ((), w)

/-- Source `zrtp_setAuxSecret`. -/
def zrtp_setAuxSecret (zr : ZRtp E) (w : World E C Z) (zrtpContext : Option Addr)
    (data : Option (List Byte)) (length : Int) :
    Except Fault (Unit × World E C Z) := do
  let engine ← getEngine w zrtpContext
  match engine with
  | some e => callEngine w e (.setAuxSecret data length) (zr.setAuxSecret data length)
  | none => pure ((), w)

/-- Source `zrtp_inState`: the engine's answer as 1 or 0, and 0 without an engine. -/
def zrtp_inState (zr : ZRtp E) (w : World E C Z) (zrtpContext : Option Addr) (state : Int) :
    Except Fault (Int × World E C Z) := do
  let engine ← getEngine w zrtpContext
  match engine with
  | some e => do
    let (r, w1) ← callEngine w e (.inState state) (zr.inState state)
    pure (if r then 1 else 0, w1)
  | none => pure (0, w)

/-- Source `zrtp_SASVerified`. -/
def zrtp_SASVerified (zr : ZRtp E) (w : World E C Z) (zrtpContext : Option Addr) :
    Except Fault (Unit × World E C Z) := do
  let engine ← getEngine w zrtpContext
  match engine with
  | some e => callEngine w e (.SASVerified) (zr.SASVerified)
  | none => pure ((), w)

/-- Source `zrtp_resetSASVerified`. -/
def zrtp_resetSASVerified (zr : ZRtp E) (w : World E C Z) (zrtpContext : Option Addr) :
    Except Fault (Unit × World E C Z) := do
  let engine ← getEngine w zrtpContext
  match engine with
  | some e => callEngine w e (.resetSASVerified) (zr.resetSASVerified)
  | none => pure ((), w)

/-- Source `zrtp_getHelloHash`: `NULL` without an engine or for an empty string, otherwise a fresh
buffer filled with `strcpy`. -/
def zrtp_getHelloHash (zr : ZRtp E) (w : World E C Z) (zrtpContext : Option Addr) (index : Int) :
    Except Fault (Option (List Byte) × World E C Z) := do
  let engine ← getEngine w zrtpContext
  match engine with
  | some e => do
    let (ret, w1) ← callEngine w e (.getHelloHash index) (zr.getHelloHash index)
    if ret.length = 0 then pure (none, w1)
    else pure (some (strcpy ret), w1)
  | none => pure (none, w)

/-- Source `zrtp_getPeerHelloHash`: `NULL` without an engine or for an empty string, otherwise a fresh
buffer filled with `strcpy`. -/
def zrtp_getPeerHelloHash (zr : ZRtp E) (w : World E C Z) (zrtpContext : Option Addr) :
    Except Fault (Option (List Byte) × World E C Z) := do
  let engine ← getEngine w zrtpContext
  match engine with
  | some e => do
    let (ret, w1) ← callEngine w e (.getPeerHelloHash) (zr.getPeerHelloHash)
    if ret.length = 0 then pure (none, w1)
    else pure (some (strcpy ret), w1)
  | none => pure (none, w)

/-- Source `zrtp_getMultiStrParams`.  `length` is the cell the out-pointer refers to (`none`
for a `NULL` pointer); the result is the returned buffer together with the value the cell holds
afterwards.  `*length = 0` is stored right after the engine pointer is read and before it is
tested; the buffer is filled with `ret.copy(retval, ret.size(), 0)`. -/
def zrtp_getMultiStrParams (zr : ZRtp E) (w : World E C Z) (zrtpContext : Option Addr)
    (length : Option Int) : Except Fault ((Option (List Byte) × Int) × World E C Z) := do
  let engine ← getEngine w zrtpContext
  match length with
  | none => .error .nullDeref
  | some _ =>
    let length0 : Int := 0
    match engine with
    | some e => do
      let (ret, w1) ← callEngine w e .getMultiStrParams zr.getMultiStrParams
      if ret.length = 0 then pure ((none, length0), w1)
      else pure ((some (ret.take ret.length), int32_of_size ret.length), w1)
    | none => pure ((none, length0), w)

/-- Source `zrtp_setMultiStrParams`.  `parameters` is the memory the pointer refers to;
`str.assign(parameters, length)` reads `length` bytes of it, which is out of bounds when
`length` is negative (it becomes a huge `size_t`) or exceeds the buffer. -/
def zrtp_setMultiStrParams (zr : ZRtp E) (w : World E C Z) (zrtpContext : Option Addr)
    (parameters : Option (List Byte)) (length : Int) :
    Except Fault (Unit × World E C Z) := do
  let engine ← getEngine w zrtpContext
  match engine with
  | none => pure ((), w)
  | some e =>
    match parameters with
    | none => pure ((), w)
    | some buf =>
      if 0 ≤ length ∧ length.toNat ≤ buf.length then
        let str := buf.take length.toNat
        callEngine w e (.setMultiStrParams str) (zr.setMultiStrParams str)
      else .error .outOfBounds

/-- Source `zrtp_isMultiStream`: the engine's answer as 1 or 0, and 0 without an engine. -/
def zrtp_isMultiStream (zr : ZRtp E) (w : World E C Z) (zrtpContext : Option Addr) :
    Except Fault (Int × World E C Z) := do
  let engine ← getEngine w zrtpContext
  match engine with
  | some e => do
    let (r, w1) ← callEngine w e (.isMultiStream) (zr.isMultiStream)
    pure (if r then 1 else 0, w1)
  | none => pure (0, w)

/-- Source `zrtp_isMultiStreamAvailable`: the engine's answer as 1 or 0, and 0 without an engine. -/
def zrtp_isMultiStreamAvailable (zr : ZRtp E) (w : World E C Z) (zrtpContext : Option Addr) :
    Except Fault (Int × World E C Z) := do
  let engine ← getEngine w zrtpContext
  match engine with
  | some e => do
    let (r, w1) ← callEngine w e (.isMultiStreamAvailable) (zr.isMultiStreamAvailable)
    pure (if r then 1 else 0, w1)
  | none => pure (0, w)

/-- Source `zrtp_acceptEnrollment`. -/
def zrtp_acceptEnrollment (zr : ZRtp E) (w : World E C Z) (zrtpContext : Option Addr)
    (accepted : Int) : Except Fault (Unit × World E C Z) := do
  let engine ← getEngine w zrtpContext
  match engine with
  | some e =>
    let b : Bool := if accepted = 0 then false else true
    callEngine w e (.acceptEnrollment b) (zr.acceptEnrollment b)
  | none => pure ((), w)

/-- Source `zrtp_isEnrollmentMode`: the engine's answer as 1 or 0, and 0 without an engine. -/
def zrtp_isEnrollmentMode (zr : ZRtp E) (w : World E C Z) (zrtpContext : Option Addr) :
    Except Fault (Int × World E C Z) := do
  let engine ← getEngine w zrtpContext
  match engine with
  | some e => do
    let (r, w1) ← callEngine w e (.isEnrollmentMode) (zr.isEnrollmentMode)
    pure (if r then 1 else 0, w1)
  | none => pure (0, w)

/-- Source `zrtp_setEnrollmentMode`. -/
def zrtp_setEnrollmentMode (zr : ZRtp E) (w : World E C Z) (zrtpContext : Option Addr)
    (enrollmentMode : Int) : Except Fault (Unit × World E C Z) := do
  let engine ← getEngine w zrtpContext
  match engine with
  | some e =>
    let b : Bool := if enrollmentMode = 0 then false else true
    callEngine w e (.setEnrollmentMode b) (zr.setEnrollmentMode b)
  | none => pure ((), w)

/-- Source `isPeerEnrolled`: the engine's answer as 1 or 0, and 0 without an engine. -/
def isPeerEnrolled (zr : ZRtp E) (w : World E C Z) (zrtpContext : Option Addr) :
    Except Fault (Int × World E C Z) := do
  let engine ← getEngine w zrtpContext
  match engine with
  | some e => do
    let (r, w1) ← callEngine w e (.isPeerEnrolled) (zr.isPeerEnrolled)
    pure (if r then 1 else 0, w1)
  | none => pure (0, w)

/-- Source `zrtp_sendSASRelayPacket`: the engine's answer as 1 or 0, and 0 without an engine.
With an engine, `std::string rn(render)` needs a non-null `render`. -/
def zrtp_sendSASRelayPacket (zr : ZRtp E) (w : World E C Z) (zrtpContext : Option Addr)
    (sh : Option (List Byte)) (render : Option String) : Except Fault (Int × World E C Z) := do
  let engine ← getEngine w zrtpContext
  match engine with
  | some e =>
    match render with
    | none => .error .nullDeref
    | some rn => do
      let (r, w1) ← callEngine w e (.sendSASRelayPacket sh rn) (zr.sendSASRelayPacket sh rn)
      pure (if r then 1 else 0, w1)
  | none => pure (0, w)

/-- Source `zrtp_getSasType`: `NULL` without an engine or for an empty string, otherwise a fresh
buffer filled with `strcpy`. -/
def zrtp_getSasType (zr : ZRtp E) (w : World E C Z) (zrtpContext : Option Addr) :
    Except Fault (Option (List Byte) × World E C Z) := do
  let engine ← getEngine w zrtpContext
  match engine with
  | some e => do
    let (ret, w1) ← callEngine w e (.getSasType) (zr.getSasType)
    if ret.length = 0 then pure (none, w1)
    else pure (some (strcpy ret), w1)
  | none => pure (none, w)

/-- Source `zrtp_getSasHash`: the engine's borrowed view, `NULL` without an engine. -/
def zrtp_getSasHash (zr : ZRtp E) (w : World E C Z) (zrtpContext : Option Addr) :
    Except Fault (Option (List Byte) × World E C Z) := do
  let engine ← getEngine w zrtpContext
  match engine with
  | some e => callEngine w e .getSasHash zr.getSasHash
  | none => pure (none, w)

/-- Source `zrtp_setSignatureData`: the engine's answer as 1 or 0, and 0 without an engine. -/
def zrtp_setSignatureData (zr : ZRtp E) (w : World E C Z) (zrtpContext : Option Addr)
    (data : Option (List Byte)) (length : Int) :
    Except Fault (Int × World E C Z) := do
  let engine ← getEngine w zrtpContext
  match engine with
  | some e => do
    let (r, w1) ← callEngine w e (.setSignatureData data length) (zr.setSignatureData data length)
    pure (if r then 1 else 0, w1)
  | none => pure (0, w)

/-- Source `zrtp_getSignatureData`: the engine's borrowed view, 0 without an engine. -/
def zrtp_getSignatureData (zr : ZRtp E) (w : World E C Z) (zrtpContext : Option Addr) :
    Except Fault (Option (List Byte) × World E C Z) := do
  let engine ← getEngine w zrtpContext
  match engine with
  | some e => callEngine w e .getSignatureData zr.getSignatureData
  | none => pure (none, w)

/-- Source `zrtp_getSignatureLength`: the engine's value, 0 without an engine. -/
def zrtp_getSignatureLength (zr : ZRtp E) (w : World E C Z) (zrtpContext : Option Addr) :
    Except Fault (Int × World E C Z) := do
  let engine ← getEngine w zrtpContext
  match engine with
  | some e => callEngine w e .getSignatureLength zr.getSignatureLength
  | none => pure (0, w)

/-- Source `zrtp_conf2AckSecure`. -/
def zrtp_conf2AckSecure (zr : ZRtp E) (w : World E C Z) (zrtpContext : Option Addr) :
    Except Fault (Unit × World E C Z) := do
  let engine ← getEngine w zrtpContext
  match engine with
  | some e => callEngine w e (.conf2AckSecure) (zr.conf2AckSecure)
  | none => pure ((), w)

/-- Source `zrtp_getPeerZid`.  `data` is the content of the output buffer; the result is the
returned integer together with the content of the buffer afterwards.  The test of `data` comes
before the context is looked at. -/
def zrtp_getPeerZid (zr : ZRtp E) (w : World E C Z) (zrtpContext : Option Addr)
    (data : Option (List Byte)) : Except Fault ((Int × Option (List Byte)) × World E C Z) :=
  match data with
  | none => pure ((0, none), w)
  | some buf => do
    let engine ← getEngine w zrtpContext
    match engine with
    | some e => do
      let (r, w1) ← callEngine w e (.getPeerZid buf) (zr.getPeerZid buf)
      pure ((r.1, some r.2), w1)
    | none => pure ((0, some buf), w)

/-- Source `zrtp_getNumberSupportedVersions`: the engine's value, 0 without an engine. -/
def zrtp_getNumberSupportedVersions (zr : ZRtp E) (w : World E C Z) (zrtpContext : Option Addr) :
    Except Fault (Int × World E C Z) := do
  let engine ← getEngine w zrtpContext
  match engine with
  | some e => callEngine w e .getNumberSupportedVersions zr.getNumberSupportedVersions
  | none => pure (0, w)

/-- Source `zrtp_getCurrentProtocolVersion`: the engine's value, 0 without an engine. -/
def zrtp_getCurrentProtocolVersion (zr : ZRtp E) (w : World E C Z) (zrtpContext : Option Addr) :
    Except Fault (Int × World E C Z) := do
  let engine ← getEngine w zrtpContext
  match engine with
  | some e => callEngine w e .getCurrentProtocolVersion zr.getCurrentProtocolVersion
  | none => pure (0, w)

/-- Source `getEnumBase`: the table of a category, `NULL` for a value outside the enumeration. -/
def getEnumBase (type : zrtp_AlgoTypes) : Option EnumBase :=
  match type with
  | .zrtp_HashAlgorithm => some .zrtpHashes
  | .zrtp_CipherAlgorithm => some .zrtpSymCiphers
  | .zrtp_PubKeyAlgorithm => some .zrtpPubKeys
  | .zrtp_SasType => some .zrtpSasTypes
  | .zrtp_AuthLength => some .zrtpAuthLengths
  | .invalid _ => none

/-- Source `zrtp_setStandardConfig`. -/
def zrtp_setStandardConfig (cf : ZrtpConfigure C A) (w : World E C Z) (zrtpContext : Option Addr) :
    Except Fault (Unit × World E C Z) := do
  let configure ← getConfig w zrtpContext
  match configure with
  | some c => callConfig w c cf.setStandardConfig
  | none => pure ((), w)

/-- Source `zrtp_setMandatoryOnly`. -/
def zrtp_setMandatoryOnly (cf : ZrtpConfigure C A) (w : World E C Z) (zrtpContext : Option Addr) :
    Except Fault (Unit × World E C Z) := do
  let configure ← getConfig w zrtpContext
  match configure with
  | some c => callConfig w c cf.setMandatoryOnly
  | none => pure ((), w)

/-- Source `zrtp_addAlgo`. -/
def zrtp_addAlgo (cf : ZrtpConfigure C A) (w : World E C Z) (zrtpContext : Option Addr)
    (algoType : zrtp_AlgoTypes) (algo : Option String) : Except Fault (Int × World E C Z) :=
  match getEnumBase algoType with
  | some base => do
    let a := cf.getByName base algo
    let configure ← getConfig w zrtpContext
    match configure with
    | some c => callConfig w c (cf.addAlgo algoType a)
    | none => pure (0, w)
  | none => pure (0, w)

/-- Source `zrtp_addAlgoAt`. -/
def zrtp_addAlgoAt (cf : ZrtpConfigure C A) (w : World E C Z) (zrtpContext : Option Addr)
    (algoType : zrtp_AlgoTypes) (algo : Option String) (index : Int) :
    Except Fault (Int × World E C Z) :=
  match getEnumBase algoType with
  | some base => do
    let a := cf.getByName base algo
    let configure ← getConfig w zrtpContext
    match configure with
    | some c => callConfig w c (cf.addAlgoAt algoType a index)
    | none => pure (0, w)
  | none => pure (0, w)

/-- Source `zrtp_removeAlgo`. -/
def zrtp_removeAlgo (cf : ZrtpConfigure C A) (w : World E C Z) (zrtpContext : Option Addr)
    (algoType : zrtp_AlgoTypes) (algo : Option String) : Except Fault (Int × World E C Z) :=
  match getEnumBase algoType with
  | some base => do
    let a := cf.getByName base algo
    let configure ← getConfig w zrtpContext
    match configure with
    | some c => callConfig w c (cf.removeAlgo algoType a)
    | none => pure (0, w)
  | none => pure (0, w)

/-- Source `zrtp_getNumConfiguredAlgos`. -/
def zrtp_getNumConfiguredAlgos (cf : ZrtpConfigure C A) (w : World E C Z)
    (zrtpContext : Option Addr) (algoType : zrtp_AlgoTypes) :
    Except Fault (Int × World E C Z) := do
  let configure ← getConfig w zrtpContext
  match configure with
  | some c => callConfig w c (cf.getNumConfiguredAlgos algoType)
  | none => pure (0, w)

/-- Source `zrtp_getAlgoAt`: the name of the descriptor at `index`, `NULL` without a
configuration. -/
def zrtp_getAlgoAt (cf : ZrtpConfigure C A) (w : World E C Z) (zrtpContext : Option Addr)
    (algoType : zrtp_AlgoTypes) (index : Int) : Except Fault (Option String × World E C Z) := do
  let configure ← getConfig w zrtpContext
  match configure with
  | some c => do
    let (a, w1) ← callConfig w c (cf.getAlgoAt algoType index)
    pure (cf.getName a, w1)
  | none => pure (none, w)

/-- Source `zrtp_containsAlgo`. -/
def zrtp_containsAlgo (cf : ZrtpConfigure C A) (w : World E C Z) (zrtpContext : Option Addr)
    (algoType : zrtp_AlgoTypes) (algo : Option String) : Except Fault (Int × World E C Z) :=
  match getEnumBase algoType with
  | some base => do
    let a := cf.getByName base algo
    let configure ← getConfig w zrtpContext
    match configure with
    | some c => do
      let (r, w1) ← callConfig w c (cf.containsAlgo algoType a)
      pure (if r then 1 else 0, w1)
    | none => pure (0, w)
  | none => pure (0, w)

/-- Source `zrtp_setTrustedMitM`. -/
def zrtp_setTrustedMitM (cf : ZrtpConfigure C A) (w : World E C Z) (zrtpContext : Option Addr)
    (yesNo : Int) : Except Fault (Unit × World E C Z) := do
  let configure ← getConfig w zrtpContext
  match configure with
  | some c => callConfig w c (cf.setTrustedMitM (if yesNo ≠ 0 then true else false))
  | none => pure ((), w)

/-- Source `zrtp_isTrustedMitM`. -/
def zrtp_isTrustedMitM (cf : ZrtpConfigure C A) (w : World E C Z) (zrtpContext : Option Addr) :
    Except Fault (Int × World E C Z) := do
  let configure ← getConfig w zrtpContext
  match configure with
  | some c => do
    let (r, w1) ← callConfig w c cf.isTrustedMitM
    pure (if r then 1 else 0, w1)
  | none => pure (0, w)

/-- Source `zrtp_setSasSignature`. -/
def zrtp_setSasSignature (cf : ZrtpConfigure C A) (w : World E C Z) (zrtpContext : Option Addr)
    (yesNo : Int) : Except Fault (Unit × World E C Z) := do
  let configure ← getConfig w zrtpContext
  match configure with
  | some c => callConfig w c (cf.setSasSignature (if yesNo ≠ 0 then true else false))
  | none => pure ((), w)

/-- Source `zrtp_isSasSignature`. -/
def zrtp_isSasSignature (cf : ZrtpConfigure C A) (w : World E C Z) (zrtpContext : Option Addr) :
    Except Fault (Int × World E C Z) := do
  let configure ← getConfig w zrtpContext
  match configure with
  | some c => do
    let (r, w1) ← callConfig w c cf.isSasSignature
    pure (if r then 1 else 0, w1)
  | none => pure (0, w)

/-! ## The session-control operations as one dispatch -/

/-- A session-control operation of the wrapper together with its argument list (the context
apart). -/
inductive FacadeOp
  | startZrtpEngine
  | stopZrtpEngine
  | processZrtpMessage (extHeader : Option (List Byte)) (peerSSRC : Nat) (length : Nat)
  | processTimeout
  | setAuxSecret (data : Option (List Byte)) (length : Int)
  | inState (state : Int)
  | SASVerified
  | resetSASVerified
  | getHelloHash (index : Int)
  | getPeerHelloHash
  | getMultiStrParams (length : Option Int)
  | setMultiStrParams (parameters : Option (List Byte)) (length : Int)
  | isMultiStream
  | isMultiStreamAvailable
  | acceptEnrollment (accepted : Int)
  | isEnrollmentMode
  | setEnrollmentMode (enrollmentMode : Int)
  | isPeerEnrolled
  | sendSASRelayPacket (sh : Option (List Byte)) (render : Option String)
  | getSasType
  | getSasHash
  | setSignatureData (data : Option (List Byte)) (length : Int)
  | getSignatureData
  | getSignatureLength
  | conf2AckSecure
  | getPeerZid (data : Option (List Byte))
  | getNumberSupportedVersions
  | getCurrentProtocolVersion
  deriving DecidableEq, Repr

/-- What a session-control operation hands back to the host. -/
inductive FacadeRes
  | void
  | int (i : Int)
  | string (s : Option (List Byte))
  | bytes (p : Option (List Byte))
  | blob (p : Option (List Byte)) (length : Int)
  | peerZid (r : Int) (data : Option (List Byte))
  deriving DecidableEq, Repr

/-- Runs the wrapper function that `op` names on `zrtpContext`. -/
def facade (zr : ZRtp E) (op : FacadeOp) (w : World E C Z) (zrtpContext : Option Addr) :
    Except Fault (FacadeRes × World E C Z) :=
  match op with
  | .startZrtpEngine => (zrtp_startZrtpEngine zr w zrtpContext).map (fun r => (.void, r.2))
  | .stopZrtpEngine => (zrtp_stopZrtpEngine zr w zrtpContext).map (fun r => (.void, r.2))
  | .processZrtpMessage h p l =>
    (zrtp_processZrtpMessage zr w zrtpContext h p l).map (fun r => (.void, r.2))
  | .processTimeout => (zrtp_processTimeout zr w zrtpContext).map (fun r => (.void, r.2))
  | .setAuxSecret d l => (zrtp_setAuxSecret zr w zrtpContext d l).map (fun r => (.void, r.2))
  | .inState s => (zrtp_inState zr w zrtpContext s).map (fun r => (.int r.1, r.2))
  | .SASVerified => (zrtp_SASVerified zr w zrtpContext).map (fun r => (.void, r.2))
  | .resetSASVerified => (zrtp_resetSASVerified zr w zrtpContext).map (fun r => (.void, r.2))
  | .getHelloHash i => (zrtp_getHelloHash zr w zrtpContext i).map (fun r => (.string r.1, r.2))
  | .getPeerHelloHash => (zrtp_getPeerHelloHash zr w zrtpContext).map (fun r => (.string r.1, r.2))
  | .getMultiStrParams l =>
    (zrtp_getMultiStrParams zr w zrtpContext l).map (fun r => (.blob r.1.1 r.1.2, r.2))
  | .setMultiStrParams p l =>
    (zrtp_setMultiStrParams zr w zrtpContext p l).map (fun r => (.void, r.2))
  | .isMultiStream => (zrtp_isMultiStream zr w zrtpContext).map (fun r => (.int r.1, r.2))
  | .isMultiStreamAvailable =>
    (zrtp_isMultiStreamAvailable zr w zrtpContext).map (fun r => (.int r.1, r.2))
  | .acceptEnrollment a => (zrtp_acceptEnrollment zr w zrtpContext a).map (fun r => (.void, r.2))
  | .isEnrollmentMode => (zrtp_isEnrollmentMode zr w zrtpContext).map (fun r => (.int r.1, r.2))
  | .setEnrollmentMode m =>
    (zrtp_setEnrollmentMode zr w zrtpContext m).map (fun r => (.void, r.2))
  | .isPeerEnrolled => (isPeerEnrolled zr w zrtpContext).map (fun r => (.int r.1, r.2))
  | .sendSASRelayPacket sh render =>
    (zrtp_sendSASRelayPacket zr w zrtpContext sh render).map (fun r => (.int r.1, r.2))
  | .getSasType => (zrtp_getSasType zr w zrtpContext).map (fun r => (.string r.1, r.2))
  | .getSasHash => (zrtp_getSasHash zr w zrtpContext).map (fun r => (.bytes r.1, r.2))
  | .setSignatureData d l =>
    (zrtp_setSignatureData zr w zrtpContext d l).map (fun r => (.int r.1, r.2))
  | .getSignatureData => (zrtp_getSignatureData zr w zrtpContext).map (fun r => (.bytes r.1, r.2))
  | .getSignatureLength =>
    (zrtp_getSignatureLength zr w zrtpContext).map (fun r => (.int r.1, r.2))
  | .conf2AckSecure => (zrtp_conf2AckSecure zr w zrtpContext).map (fun r => (.void, r.2))
  | .getPeerZid d => (zrtp_getPeerZid zr w zrtpContext d).map (fun r => (.peerZid r.1.1 r.1.2, r.2))
  | .getNumberSupportedVersions =>
    (zrtp_getNumberSupportedVersions zr w zrtpContext).map (fun r => (.int r.1, r.2))
  | .getCurrentProtocolVersion =>
    (zrtp_getCurrentProtocolVersion zr w zrtpContext).map (fun r => (.int r.1, r.2))

/-- The neutral value of a session-control operation: nothing for a `void` function, 0 for an
integer or boolean result, `NULL` for a string or byte result, `NULL` with `*length = 0` for the
multi-stream parameters, and 0 with the output buffer as it was for the peer identifier. -/
def neutral (op : FacadeOp) : FacadeRes :=
  match op with
  | .startZrtpEngine | .stopZrtpEngine | .processZrtpMessage _ _ _ | .processTimeout
  | .setAuxSecret _ _ | .SASVerified | .resetSASVerified | .setMultiStrParams _ _
  | .acceptEnrollment _ | .setEnrollmentMode _ | .conf2AckSecure => .void
  | .inState _ | .isMultiStream | .isMultiStreamAvailable | .isEnrollmentMode | .isPeerEnrolled
  | .sendSASRelayPacket _ _ | .setSignatureData _ _ | .getSignatureLength
  | .getNumberSupportedVersions | .getCurrentProtocolVersion => .int 0
  | .getHelloHash _ | .getPeerHelloHash | .getSasType => .string none
  | .getSasHash | .getSignatureData => .bytes none
  | .getMultiStrParams _ => .blob none 0
  | .getPeerZid data => .peerZid 0 data

/-- The context is absent, or it is a live context whose engine pointer is `NULL`. -/
def NotInitialized (w : World E C Z) (zrtpContext : Option Addr) : Prop :=
  zrtpContext = none ∨
    ∃ a c, zrtpContext = some a ∧ w.heap[a]? = some (.context c) ∧ c.zrtpEngine = none

/-! ## Sample collaborators

Small concrete collaborators, used to run the wrapper on closed inputs. -/

/-- A sample engine whose state is one byte string: it is the hello hash, the SAS type and the
multi-stream blob the engine reports, `setMultiStrParams` replaces it, and `getPeerZid` writes
it to the output buffer. -/
def sampleZRtp : ZRtp (List Byte) where
  new := fun zid _ _ _ _ => zid
  startZrtpEngine := fun e => ((), e)
  stopZrtp := fun e => ((), e)
  processZrtpMessage := fun _ _ _ e => ((), e)
  processTimeout := fun e => ((), e)
  setAuxSecret := fun _ _ e => ((), e)
  inState := fun _ e => (true, e)
  SASVerified := fun e => ((), e)
  resetSASVerified := fun e => ((), e)
  getHelloHash := fun _ e => (e, e)
  getPeerHelloHash := fun e => (e, e)
  getMultiStrParams := fun e => (e, e)
  setMultiStrParams := fun s _ => ((), s)
  isMultiStream := fun e => (false, e)
  isMultiStreamAvailable := fun e => (true, e)
  acceptEnrollment := fun _ e => ((), e)
  isEnrollmentMode := fun e => (false, e)
  setEnrollmentMode := fun _ e => ((), e)
  isPeerEnrolled := fun e => (false, e)
  sendSASRelayPacket := fun _ _ e => (true, e)
  getSasType := fun e => (e, e)
  getSasHash := fun e => (some e, e)
  setSignatureData := fun _ _ e => (true, e)
  getSignatureData := fun e => (none, e)
  getSignatureLength := fun e => (0, e)
  conf2AckSecure := fun e => ((), e)
  getPeerZid := fun _ e => ((e.length, e), e)
  getNumberSupportedVersions := fun e => (2, e)
  getCurrentProtocolVersion := fun e => (1, e)

/-- A sample configuration: the list of algorithm names chosen so far, in order. -/
def sampleConfigure : ZrtpConfigure (List String) String where
  new := []
  setStandardConfig := fun _ => ((), ["S256", "AES1", "DH3k", "B32", "HS32"])
  setMandatoryOnly := fun _ => ((), ["S256"])
  addAlgo := fun _ a c => if a ∈ c then (0, c) else (1, c ++ [a])
  addAlgoAt := fun _ a _ c => if a ∈ c then (0, c) else (1, a :: c)
  removeAlgo := fun _ a c => (1, c.filter (fun b => b != a))
  getNumConfiguredAlgos := fun _ c => (c.length, c)
  getAlgoAt := fun _ i c => (c.getD i.toNat "", c)
  containsAlgo := fun _ a c => (decide (a ∈ c), c)
  setTrustedMitM := fun _ c => ((), c)
  isTrustedMitM := fun c => (false, c)
  setSasSignature := fun _ c => ((), c)
  isSasSignature := fun c => (false, c)
  getByName := fun _ name => name.getD ""
  getName := fun a => some a

/-- A sample identity cache that opens every file: the state is whether it is open. -/
def sampleZIDCache : ZIDCache Bool where
  isOpen := fun z => z
  openFile := fun _ _ => (1, true)
  getZid := fun _ => [1, 2, 3, 4, 5, 6, 7, 8, 9, 10, 11, 12]

/-- A sample identity cache whose `open` always reports failure (-1) and stays closed. -/
def failingZIDCache : ZIDCache Bool where
  isOpen := fun z => z
  openFile := fun _ z => (-1, z)
  getZid := fun _ => []

/-- A sample identity cache that remembers the file it was opened with: the state is that path,
`none` while the cache is closed. -/
def recordingZIDCache : ZIDCache (Option String) where
  isOpen := fun z => z.isSome
  openFile := fun path _ => (1, some path)
  getZid := fun _ => [1, 2, 3, 4, 5, 6, 7, 8, 9, 10, 11, 12]

/-- A world with one fresh context at address 0, the recording cache closed, and the given
value of `HOME`. -/
def recordingWorld (home : Option String) : World (List Byte) (List String) (Option String) :=
  { heap := [.context { configure := none, zrtpEngine := none, zrtpCallback := none,
                        userData := none }],
    zidCache := none, home := home, trace := [] }

/-- The process before any wrapper call: empty heap, closed cache, `HOME` unset. -/
def emptyWorld : World (List Byte) (List String) Bool :=
  { heap := [], zidCache := false, home := none, trace := [] }

/-- A world with one fresh context at address 0. -/
def freshWorld : World (List Byte) (List String) Bool :=
  (zrtp_CreateWrapper emptyWorld none).2

/-! ## The public call surface as a transition system -/

/-- A call of a public function of the wrapper that takes a context, or creates one, with its
arguments.  (`zrtp_getAlgorithmNames`, `zrtp_freeAlgorithmNames` and the three checksum
functions never read or write a context and are left out.) -/
inductive Api
  | CreateWrapper (uninit : Option Nat)
  | InitializeConfig (zrtpContext : Option Addr)
  | initializeZrtpEngine (zrtpContext : Option Addr) (cb : Option Nat) (id : Option String)
      (zidFilename : Option String) (userData : Option Nat) (mitmMode : Int)
  | DestroyWrapper (zrtpContext : Option Addr)
  | control (op : FacadeOp) (zrtpContext : Option Addr)
  | setStandardConfig (zrtpContext : Option Addr)
  | setMandatoryOnly (zrtpContext : Option Addr)
  | addAlgo (zrtpContext : Option Addr) (algoType : zrtp_AlgoTypes) (algo : Option String)
  | addAlgoAt (zrtpContext : Option Addr) (algoType : zrtp_AlgoTypes) (algo : Option String) (index : Int)
  | removeAlgo (zrtpContext : Option Addr) (algoType : zrtp_AlgoTypes) (algo : Option String)
  | getNumConfiguredAlgos (zrtpContext : Option Addr) (algoType : zrtp_AlgoTypes)
  | getAlgoAt (zrtpContext : Option Addr) (algoType : zrtp_AlgoTypes) (index : Int)
  | containsAlgo (zrtpContext : Option Addr) (algoType : zrtp_AlgoTypes) (algo : Option String)
  | setTrustedMitM (zrtpContext : Option Addr) (yesNo : Int)
  | isTrustedMitM (zrtpContext : Option Addr)
  | setSasSignature (zrtpContext : Option Addr) (yesNo : Int)
  | isSasSignature (zrtpContext : Option Addr)
  deriving DecidableEq, Repr

/-- The process state after one public call; the value handed back to the host is dropped. -/
def step (zr : ZRtp E) (cf : ZrtpConfigure C A) (zc : ZIDCache Z) (w : World E C Z) :
    Api → Except Fault (World E C Z)
  | .CreateWrapper uninit => .ok (zrtp_CreateWrapper w uninit).2
  | .InitializeConfig ctx => (zrtp_InitializeConfig cf w ctx).map (fun r => r.2)
  | .initializeZrtpEngine ctx cb id zidFilename userData mitmMode =>
    zrtp_initializeZrtpEngine zr cf zc w ctx cb id zidFilename userData mitmMode
  | .DestroyWrapper ctx => zrtp_DestroyWrapper w ctx
  | .control op ctx => (facade zr op w ctx).map (fun r => r.2)
  | .setStandardConfig ctx => (zrtp_setStandardConfig cf w ctx).map (fun r => r.2)
  | .setMandatoryOnly ctx => (zrtp_setMandatoryOnly cf w ctx).map (fun r => r.2)
  | .addAlgo ctx t algo => (zrtp_addAlgo cf w ctx t algo).map (fun r => r.2)
  | .addAlgoAt ctx t algo i => (zrtp_addAlgoAt cf w ctx t algo i).map (fun r => r.2)
  | .removeAlgo ctx t algo => (zrtp_removeAlgo cf w ctx t algo).map (fun r => r.2)
  | .getNumConfiguredAlgos ctx t => (zrtp_getNumConfiguredAlgos cf w ctx t).map (fun r => r.2)
  | .getAlgoAt ctx t i => (zrtp_getAlgoAt cf w ctx t i).map (fun r => r.2)
  | .containsAlgo ctx t algo => (zrtp_containsAlgo cf w ctx t algo).map (fun r => r.2)
  | .setTrustedMitM ctx yesNo => (zrtp_setTrustedMitM cf w ctx yesNo).map (fun r => r.2)
  | .isTrustedMitM ctx => (zrtp_isTrustedMitM cf w ctx).map (fun r => r.2)
  | .setSasSignature ctx yesNo => (zrtp_setSasSignature cf w ctx yesNo).map (fun r => r.2)
  | .isSasSignature ctx => (zrtp_isSasSignature cf w ctx).map (fun r => r.2)

/-- The process state after a sequence of public calls; a fault ends the run. -/
def run (zr : ZRtp E) (cf : ZrtpConfigure C A) (zc : ZIDCache Z) (w : World E C Z) :
    List Api → Except Fault (World E C Z)
  | [] => .ok w
  | call :: rest =>
    match step zr cf zc w call with
    | .ok w1 => run zr cf zc w1 rest
    | .error f => .error f

/-! ## Predicates of the specification -/

/-- The context stored at an address of a heap, if the cell holds a live context. -/
def ctxOf (heap : List (Obj E C)) (a : Nat) : Option ZrtpContext :=
  match heap[a]? with
  | some (.context c) => some c
  | _ => none

/-- The all-or-nothing reading of the data model: engine, callback bridge and configuration are
all three present or all three absent. -/
def AllOrNothing (c : ZrtpContext) : Prop :=
  (c.zrtpEngine ≠ none ∧ c.zrtpCallback ≠ none ∧ c.configure ≠ none) ∨
    (c.zrtpEngine = none ∧ c.zrtpCallback = none ∧ c.configure = none)

/-- The engine and the callback bridge are present together, and then the configuration is
present too; the configuration may be present alone. -/
def EngineBound (c : ZrtpContext) : Prop :=
  (c.zrtpEngine ≠ none ↔ c.zrtpCallback ≠ none) ∧ (c.zrtpEngine ≠ none → c.configure ≠ none)

/-- The context `c` lives at `a` and every pointer it holds refers to a live object of the right
kind. -/
def Owned (w : World E C Z) (a : Addr) (c : ZrtpContext) : Prop :=
  w.heap[a]? = some (.context c) ∧
  (∀ e, c.zrtpEngine = some e → ∃ x, w.heap[e]? = some (.engine x)) ∧
  (∀ k, c.zrtpCallback = some k → ∃ x, w.heap[k]? = some (.callback x)) ∧
  (∀ k, c.configure = some k → ∃ x, w.heap[k]? = some (.configure x))

/-- The sub-list of [engine, callback bridge, configuration] whose pointer is present in the
context, as release events. -/
def presentReleases (c : ZrtpContext) : List Event :=
  [(Resource.engine, c.zrtpEngine), (Resource.callback, c.zrtpCallback),
    (Resource.configure, c.configure)].filterMap (fun p => p.2.map (Event.delete p.1))

/-- The context at `a` is Initialized: its engine pointer refers to the live engine `x`. -/
def EngineAt (w : World E C Z) (a e : Addr) (x : E) : Prop :=
  ∃ c, w.heap[a]? = some (.context c) ∧ c.zrtpEngine = some e ∧ w.heap[e]? = some (.engine x)

/-- An Initialized session: the context at address 0 owns the callback bridge at 1, the
configuration at 2 and the sample engine at 3, whose state is `s`. -/
def sessionWorld (s : List Byte) : World (List Byte) (List String) Bool :=
  { heap := [.context { configure := some 2, zrtpEngine := some 3, zrtpCallback := some 1,
                        userData := none },
             .callback { cb := none, ctx := some 0 },
             .configure ["S256", "AES1", "DH3k", "B32", "HS32"],
             .engine s],
    zidCache := true, home := none, trace := [] }

/-- A context at address 0 that holds a configuration (at address 1) and nothing else. -/
def configOnlyWorld : World (List Byte) (List String) Bool :=
  { heap := [.context { configure := some 1, zrtpEngine := none, zrtpCallback := none,
                        userData := none },
             .configure []],
    zidCache := false, home := none, trace := [] }

/-! ## Proof vocabulary -/

/-- Every live context of the heap satisfies `EngineBound`. -/
def Inv (heap : List (Obj E C)) : Prop :=
  ∀ a c, ctxOf heap a = some c → EngineBound c

/-- The heap `l1` has the contexts of `l` (no context was added, removed or changed). -/
def SameContexts (l l1 : List (Obj E C)) : Prop :=
  ∀ b, ctxOf l1 b = ctxOf l b

/-- The computation `x` can only succeed with a value that satisfies `P`. -/
def OkOnly {α : Type} (P : α → Prop) : Except Fault α → Prop
  | .ok a => P a
  | .error _ => True

/-- Away from address `a`, every context of `l1` is a context of `l`. -/
def SubContexts (a : Nat) (l l1 : List (Obj E C)) : Prop :=
  ∀ b c, b ≠ a → ctxOf l1 b = some c → ctxOf l b = some c

/-! ## Heap lemmas -/

theorem lt_of_getElem? {α : Type} {l : List α} {a : Nat} {x : α} (h : l[a]? = some x) :
    a < l.length := by
  by_contra hn
  have : l[a]? = none := List.getElem?_eq_none (by omega)
  rw [this] at h; cases h

theorem callEngine_ok {α : Type} (w : World E C Z) (e : Addr) (x : E) (c : Call) (m : E → α × E)
    (h : w.heap[e]? = some (.engine x)) :
    callEngine w e c m = .ok ((m x).1,
      { w with heap := w.heap.set e (.engine (m x).2), trace := w.trace ++ [.call e c] }) := by
  simp [callEngine, h]

theorem getEngine_of_engineAt {w : World E C Z} {a e : Addr} {x : E} (h : EngineAt w a e x) :
    getEngine w (some a) = .ok (some e) := by
  obtain ⟨c, h1, h2, _⟩ := h
  simp [getEngine, derefContext, h1, h2, Except.map]

theorem engineAt_cell {w : World E C Z} {a e : Addr} {x : E} (h : EngineAt w a e x) :
    w.heap[e]? = some (.engine x) := by
  obtain ⟨c, _, _, h3⟩ := h
  exact h3

theorem getEngine_of_notInitialized {w : World E C Z} {zrtpContext : Option Addr}
    (h : NotInitialized w zrtpContext) : getEngine w zrtpContext = .ok none := by
  rcases h with h | ⟨a, c, h1, h2, h3⟩
  · subst h; rfl
  · subst h1; simp [getEngine, derefContext, h2, h3, Except.map]

theorem sessionWorld_engineAt (s : List Byte) : EngineAt (sessionWorld s) 0 3 s :=
  ⟨_, rfl, rfl, rfl⟩

/-! ## C1: operations on a context without an engine -/

/-- C1 (amended). Every session-control operation, with any argument list in which the `length`
out-pointer of `zrtp_getMultiStrParams` is present, on an absent context or on a live context
whose engine is absent returns its neutral value and leaves the whole process state as it was:
the heap (so the context) is unchanged and the trace gains no engine call. -/
theorem facade_not_initialized (zr : ZRtp E) (op : FacadeOp) (w : World E C Z)
    (zrtpContext : Option Addr) (h : NotInitialized w zrtpContext)
    (hl : op ≠ .getMultiStrParams none) :
    facade zr op w zrtpContext = .ok (neutral op, w) := by
  have hE := getEngine_of_notInitialized h
  cases op
  case getPeerZid data =>
    cases data <;>
      simp [facade, neutral, zrtp_getPeerZid, hE, bind, Except.bind, pure, Except.pure, Except.map]
  case getMultiStrParams l =>
    cases l with
    | none => exact absurd rfl hl
    | some v =>
      simp [facade, neutral, zrtp_getMultiStrParams, hE, bind, Except.bind, pure, Except.pure,
        Except.map]
  all_goals
    simp [facade, neutral, zrtp_startZrtpEngine, zrtp_stopZrtpEngine, zrtp_processZrtpMessage,
      zrtp_processTimeout, zrtp_setAuxSecret, zrtp_inState, zrtp_SASVerified,
      zrtp_resetSASVerified, zrtp_getHelloHash, zrtp_getPeerHelloHash,
      zrtp_setMultiStrParams, zrtp_isMultiStream, zrtp_isMultiStreamAvailable,
      zrtp_acceptEnrollment, zrtp_isEnrollmentMode, zrtp_setEnrollmentMode, isPeerEnrolled,
      zrtp_sendSASRelayPacket, zrtp_getSasType, zrtp_getSasHash, zrtp_setSignatureData,
      zrtp_getSignatureData, zrtp_getSignatureLength, zrtp_conf2AckSecure,
      zrtp_getNumberSupportedVersions, zrtp_getCurrentProtocolVersion, hE, bind, Except.bind,
      pure, Except.pure, Except.map]

/-- C1 (amended) at a concrete input: `zrtp_getMultiStrParams` with a present `length` cell on a
fresh context returns `NULL` with reported length 0 and changes nothing. -/
theorem facade_not_initialized_witness :
    NotInitialized freshWorld (some 0) ∧
      facade sampleZRtp (.getMultiStrParams (some 7)) freshWorld (some 0)
        = .ok (.blob none 0, freshWorld) :=
  ⟨Or.inr ⟨0, _, rfl, rfl, rfl⟩,
    facade_not_initialized sampleZRtp (.getMultiStrParams (some 7)) freshWorld (some 0)
      (Or.inr ⟨0, _, rfl, rfl, rfl⟩) (by decide)⟩

/-- C1 as stated fails: `zrtp_getMultiStrParams` with a `NULL` `length` pointer stores through
it before the engine is tested, on a fresh context as well as on an absent one, so it does not
return the neutral value. -/
theorem getMultiStrParams_null_length :
    NotInitialized freshWorld (some 0) ∧
      facade sampleZRtp (.getMultiStrParams none) freshWorld (some 0) = .error .nullDeref ∧
      facade sampleZRtp (.getMultiStrParams none) freshWorld none = .error .nullDeref ∧
      facade sampleZRtp (.getMultiStrParams none) freshWorld (some 0)
        ≠ .ok (neutral (.getMultiStrParams none), freshWorld) :=
  ⟨Or.inr ⟨0, _, rfl, rfl, rfl⟩, rfl, rfl, fun h => by cases h⟩

/-! ## C7: the local hello hash -/

theorem getHelloHash_eq (zr : ZRtp E) (w : World E C Z) (a e : Addr) (x : E) (index : Int)
    (h : EngineAt w a e x) :
    zrtp_getHelloHash zr w (some a) index =
      .ok (if (zr.getHelloHash index x).1.length = 0 then none
           else some (strcpy (zr.getHelloHash index x).1),
        { w with heap := w.heap.set e (.engine (zr.getHelloHash index x).2),
                 trace := w.trace ++ [.call e (.getHelloHash index)] }) := by
  simp only [zrtp_getHelloHash, getEngine_of_engineAt h, bind, Except.bind,
    callEngine_ok w e x _ _ (engineAt_cell h)]
  split <;> rfl

theorem takeWhile_ne_zero (s : List Byte) (h : (0 : Byte) ∉ s) :
    s.takeWhile (fun b => b != 0) = s := by
  induction s with
  | nil => rfl
  | cons b t ih =>
    have hb : (b != 0) = true := by
      have : b ≠ 0 := fun hb => h (by simp [hb])
      simpa using this
    have ht : (0 : Byte) ∉ t := fun ht => h (List.mem_cons_of_mem _ ht)
    simp only [List.takeWhile, hb, ih ht]

/-- C7 (amended). On an Initialized context `zrtp_getHelloHash` invokes the engine once and
returns `NULL` exactly when the engine's string is empty; for a non-empty string it returns the
C string made by `strcpy`, that is the engine's string up to its first zero character, which is
the whole string when it contains no zero character. -/
theorem getHelloHash_result (zr : ZRtp E) (w : World E C Z) (a e : Addr) (x : E) (index : Int)
    (h : EngineAt w a e x) :
    ∃ r w1, zrtp_getHelloHash zr w (some a) index = .ok (r, w1) ∧
      w1.trace = w.trace ++ [.call e (.getHelloHash index)] ∧
      (r = none ↔ (zr.getHelloHash index x).1 = []) ∧
      ((zr.getHelloHash index x).1 ≠ [] →
        r = some ((zr.getHelloHash index x).1.takeWhile (fun b => b != 0))) ∧
      ((zr.getHelloHash index x).1 ≠ [] → (0 : Byte) ∉ (zr.getHelloHash index x).1 →
        r = some (zr.getHelloHash index x).1) := by
  refine ⟨_, _, getHelloHash_eq zr w a e x index h, rfl, ?_, ?_, ?_⟩
  · by_cases hs : (zr.getHelloHash index x).1 = [] <;> simp [hs]
  · intro hs; simp [hs, strcpy]
  · intro hs h0; simp [hs, strcpy, takeWhile_ne_zero _ h0]

/-- C7 (amended) at a concrete input: the sample engine reports the string "abc". -/
theorem getHelloHash_result_witness :
    EngineAt (sessionWorld [97, 98, 99]) 0 3 [97, 98, 99] ∧
      ∃ r w1, zrtp_getHelloHash sampleZRtp (sessionWorld [97, 98, 99]) (some 0) 0 = .ok (r, w1) ∧
        r = some [97, 98, 99] := by
  refine ⟨sessionWorld_engineAt _, ?_⟩
  obtain ⟨r, w1, h1, _, _, _, h5⟩ :=
    getHelloHash_result sampleZRtp (sessionWorld [97, 98, 99]) 0 3 [97, 98, 99] 0
      (sessionWorld_engineAt _)
  exact ⟨r, w1, h1, h5 (by simp [sampleZRtp]) (by simp [sampleZRtp])⟩

/-- C7 as stated fails: the engine's string is the three characters 'a', NUL, 'b'; it is not
empty, and the string returned is "a", not the engine's string. -/
theorem getHelloHash_stops_at_zero :
    (sampleZRtp.getHelloHash 0 [97, 0, 98]).1 = [97, 0, 98] ∧
      ∃ w1, zrtp_getHelloHash sampleZRtp (sessionWorld [97, 0, 98]) (some 0) 0
          = .ok (some [97], w1) ∧
        (some [97] : Option (List Byte)) ≠ some [97, 0, 98] :=
  ⟨rfl, _, rfl, by decide⟩

/-! ## C8: the multi-stream parameter blob -/

theorem getMultiStrParams_eq (zr : ZRtp E) (w : World E C Z) (a e : Addr) (x : E)
    (v : Int) (h : EngineAt w a e x) :
    zrtp_getMultiStrParams zr w (some a) (some v) =
      .ok (if (zr.getMultiStrParams x).1.length = 0 then (none, 0)
           else (some (zr.getMultiStrParams x).1, int32_of_size (zr.getMultiStrParams x).1.length),
        { w with heap := w.heap.set e (.engine (zr.getMultiStrParams x).2),
                 trace := w.trace ++ [.call e .getMultiStrParams] }) := by
  simp only [zrtp_getMultiStrParams, getEngine_of_engineAt h, bind, Except.bind,
    callEngine_ok w e x _ _ (engineAt_cell h)]
  split
  · rfl
  · simp only [List.take_length]; rfl

theorem setMultiStrParams_eq (zr : ZRtp E) (w : World E C Z) (a e : Addr) (x : E)
    (buf : List Byte) (n : Nat) (h : EngineAt w a e x) (hn : n ≤ buf.length) :
    zrtp_setMultiStrParams zr w (some a) (some buf) n =
      .ok ((), { w with heap := w.heap.set e (.engine (zr.setMultiStrParams (buf.take n) x).2),
                        trace := w.trace ++ [.call e (.setMultiStrParams (buf.take n))] }) := by
  simp [zrtp_setMultiStrParams, getEngine_of_engineAt h, bind, Except.bind, hn,
    callEngine_ok w e x _ _ (engineAt_cell h)]

theorem int32_of_size_small (n : Nat) (h : n < 2147483648) : int32_of_size n = n := by
  unfold int32_of_size
  omega

/-- C8 (amended). On an Initialized context `zrtp_getMultiStrParams` returns `NULL` with
reported length 0 when the engine's blob is empty, and otherwise a copy equal byte for byte to
the engine's blob, zero bytes included, with the blob's size converted to `int32_t` as reported
length; that is the size itself whenever the size is below 2^31.  `zrtp_setMultiStrParams` with
a present buffer hands the engine exactly the first `n` bytes of the buffer, and with an absent
buffer it makes no engine call and changes nothing. -/
theorem multiStrParams_opaque (zr : ZRtp E) (w : World E C Z) (a e : Addr) (x : E)
    (h : EngineAt w a e x) :
    (∀ v : Int, ∃ w1, zrtp_getMultiStrParams zr w (some a) (some v) =
        .ok (if (zr.getMultiStrParams x).1 = [] then (none, 0)
             else (some (zr.getMultiStrParams x).1,
                   int32_of_size (zr.getMultiStrParams x).1.length), w1) ∧
      w1.trace = w.trace ++ [.call e .getMultiStrParams]) ∧
    ((zr.getMultiStrParams x).1.length < 2147483648 →
      int32_of_size (zr.getMultiStrParams x).1.length = (zr.getMultiStrParams x).1.length) ∧
    (∀ (buf : List Byte) (n : Nat), n ≤ buf.length →
      zrtp_setMultiStrParams zr w (some a) (some buf) n =
        .ok ((), { w with heap := w.heap.set e (.engine (zr.setMultiStrParams (buf.take n) x).2),
                          trace := w.trace ++ [.call e (.setMultiStrParams (buf.take n))] })) ∧
    (∀ n : Int, zrtp_setMultiStrParams zr w (some a) none n = .ok ((), w)) := by
  refine ⟨fun v => ⟨{ w with heap := w.heap.set e (.engine (zr.getMultiStrParams x).2),
                              trace := w.trace ++ [.call e .getMultiStrParams] }, ?_, rfl⟩,
    int32_of_size_small _, ?_, ?_⟩
  · rw [getMultiStrParams_eq zr w a e x v h]
    simp only [List.length_eq_zero]
  · intro buf n hn
    exact setMultiStrParams_eq zr w a e x buf n h hn
  · intro n
    simp [zrtp_setMultiStrParams, getEngine_of_engineAt h, bind, Except.bind, pure, Except.pure]

/-- C8 (amended) at a concrete input: a blob of four bytes with zero bytes inside comes back
unchanged with reported length 4, and a buffer of four bytes is handed to the engine. -/
theorem multiStrParams_opaque_witness :
    EngineAt (sessionWorld [7, 0, 0, 9]) 0 3 [7, 0, 0, 9] ∧
      (∃ w1, zrtp_getMultiStrParams sampleZRtp (sessionWorld [7, 0, 0, 9]) (some 0) (some 0) =
        .ok ((some [7, 0, 0, 9], 4), w1)) ∧
      (∃ w1, zrtp_setMultiStrParams sampleZRtp (sessionWorld [7, 0, 0, 9]) (some 0)
          (some [1, 0, 2, 0]) 4 = .ok ((), w1) ∧
        w1.heap[3]? = some (.engine [1, 0, 2, 0]) ∧
        w1.trace = [.call 3 (.setMultiStrParams [1, 0, 2, 0])]) := by
  have h := multiStrParams_opaque sampleZRtp (sessionWorld [7, 0, 0, 9]) 0 3 [7, 0, 0, 9]
    (sessionWorld_engineAt _)
  refine ⟨sessionWorld_engineAt _, ?_, ?_⟩
  · obtain ⟨w1, h1, _⟩ := h.1 0
    exact ⟨w1, h1⟩
  · exact ⟨_, h.2.2.1 [1, 0, 2, 0] 4 (by decide), rfl, rfl⟩

/-- C8 as stated fails: for a blob of 2^31 bytes the reported length is -2^31, not the size of
the blob (no `int32_t` value is that size). -/
theorem getMultiStrParams_length_wraps :
    ∃ p n w1, zrtp_getMultiStrParams sampleZRtp
        (sessionWorld (List.replicate 2147483648 0)) (some 0) (some 0) = .ok ((p, n), w1) ∧
      p = some (List.replicate 2147483648 0) ∧
      n = -2147483648 ∧
      n ≠ (((sampleZRtp.getMultiStrParams (List.replicate 2147483648 0)).1.length : Nat) : Int) := by
  have h := getMultiStrParams_eq sampleZRtp _ 0 3 _ 0
    (sessionWorld_engineAt (List.replicate 2147483648 0))
  have hs : (sampleZRtp.getMultiStrParams (List.replicate 2147483648 0)).1.length
      = 2147483648 := List.length_replicate _ _
  rw [hs, if_neg (by decide)] at h
  have hn : int32_of_size 2147483648 = -2147483648 := by decide
  rw [hn] at h
  exact ⟨_, _, _, h, rfl, rfl, by rw [hs]; decide⟩

/-! ## C9: the peer identifier -/

/-- C9. With an absent output buffer `zrtp_getPeerZid` returns 0, writes nothing and leaves the
process state as it was (no engine call), whatever the context is; with a present buffer on an
Initialized context it invokes the engine's `getPeerZid` on that buffer once and returns the
length the engine reports together with the buffer as the engine wrote it. -/
theorem getPeerZid_result (zr : ZRtp E) (w : World E C Z) (zrtpContext : Option Addr) :
    zrtp_getPeerZid zr w zrtpContext none = .ok ((0, none), w) ∧
    (∀ (a e : Addr) (x : E) (buf : List Byte), zrtpContext = some a → EngineAt w a e x →
      zrtp_getPeerZid zr w zrtpContext (some buf) =
        .ok (((zr.getPeerZid buf x).1.1, some (zr.getPeerZid buf x).1.2),
          { w with heap := w.heap.set e (.engine (zr.getPeerZid buf x).2),
                   trace := w.trace ++ [.call e (.getPeerZid buf)] })) := by
  refine ⟨rfl, ?_⟩
  intro a e x buf ha h
  subst ha
  simp [zrtp_getPeerZid, getEngine_of_engineAt h, bind, Except.bind, pure, Except.pure,
    callEngine_ok w e x _ _ (engineAt_cell h)]

/-- C9 at a concrete input: the sample engine writes its three bytes and reports length 3. -/
theorem getPeerZid_result_witness :
    EngineAt (sessionWorld [5, 6, 7]) 0 3 [5, 6, 7] ∧
      ∃ w1, zrtp_getPeerZid sampleZRtp (sessionWorld [5, 6, 7]) (some 0) (some [0, 0, 0]) =
          .ok ((3, some [5, 6, 7]), w1) ∧
        w1.trace = [.call 3 (.getPeerZid [0, 0, 0])] :=
  ⟨sessionWorld_engineAt _, _,
    (getPeerZid_result sampleZRtp (sessionWorld [5, 6, 7]) (some 0)).2 0 3 [5, 6, 7] [0, 0, 0] rfl
      (sessionWorld_engineAt _), rfl⟩

/-! ## C4, C5: destroy -/

theorem ctxOf_eq_some {l : List (Obj E C)} {a : Nat} {c : ZrtpContext} :
    ctxOf l a = some c ↔ l[a]? = some (.context c) := by
  unfold ctxOf
  split
  · rename_i c1 h; simp [h]
  · rename_i h
    constructor
    · intro h1; cases h1
    · intro h1; exact absurd h1 (h c)

theorem ctxOf_set_ne (l : List (Obj E C)) {a b : Nat} (o : Obj E C) (hb : b ≠ a) :
    ctxOf (l.set a o) b = ctxOf l b := by
  simp [ctxOf, List.getElem?_set, Ne.symm hb]

theorem ctxOf_append (l l1 : List (Obj E C)) (b : Nat)
    (h1 : ∀ o ∈ l1, o.resource ≠ some .context) : ctxOf (l ++ l1) b = ctxOf l b := by
  by_cases hb : b < l.length
  · simp [ctxOf, List.getElem?_append_left hb]
  · have h0 : l[b]? = none := List.getElem?_eq_none (by omega)
    cases hc : ctxOf (l ++ l1) b with
    | none => simp [ctxOf, h0]
    | some c =>
      rw [ctxOf_eq_some, List.getElem?_append_right (by omega)] at hc
      have := h1 _ (List.getElem?_mem hc)
      simp [Obj.resource] at this

theorem ne_of_cells {l : List (Obj E C)} {a b : Nat} {o1 o2 : Obj E C}
    (h1 : l[a]? = some o1) (h2 : l[b]? = some o2) (hk : o1.resource ≠ o2.resource) : a ≠ b := by
  rintro rfl
  rw [h1] at h2
  cases h2
  exact hk rfl

theorem deleteObj_ok (w : World E C Z) (r : Resource) (x : Addr)
    (h : (w.heap[x]?).bind Obj.resource = some r) :
    deleteObj w r x =
      .ok { w with heap := w.heap.set x .freed, trace := w.trace ++ [.delete r x] } := by
  unfold deleteObj
  cases hc : w.heap[x]? with
  | none => simp [hc] at h
  | some o =>
    simp only [hc, Option.some_bind] at h
    simp [h]

theorem resource_of_cell {l : List (Obj E C)} {a : Nat} {o : Obj E C} {r : Resource}
    (h : l[a]? = some o) (hr : o.resource = some r) : (l[a]?).bind Obj.resource = some r := by
  simp [h, hr]

theorem modifyContext_ok (w : World E C Z) (a : Addr) (c : ZrtpContext)
    (f : ZrtpContext → ZrtpContext) (h : w.heap[a]? = some (.context c)) :
    modifyContext w (some a) f = .ok { w with heap := w.heap.set a (.context (f c)) } := by
  simp [modifyContext, h]

theorem deleteAndClear_ok (w : World E C Z) (a : Addr) (c : ZrtpContext) (r : Resource)
    (p : Option Addr) (f : ZrtpContext → ZrtpContext) (h0 : w.heap[a]? = some (.context c))
    (hp : ∀ x, p = some x → x ≠ a ∧ (w.heap[x]?).bind Obj.resource = some r) :
    ∃ w1, deleteAndClear w (some a) r p f = .ok w1 ∧
      w1.heap[a]? = some (.context (if p = none then c else f c)) ∧
      (∀ y, y ≠ a → p ≠ some y → w1.heap[y]? = w.heap[y]?) ∧
      w1.trace = w.trace ++ (p.map (Event.delete r)).toList ∧
      (∀ x, p = some x → w1.heap[x]? = some .freed) ∧
      w1.zidCache = w.zidCache ∧ w1.home = w.home := by
  cases p with
  | none => exact ⟨w, rfl, by simpa using h0, fun _ _ _ => rfl, by simp, by simp, rfl, rfl⟩
  | some x =>
    obtain ⟨hxa, hx⟩ := hp x rfl
    have hlt := lt_of_getElem? h0
    have hxlt : x < w.heap.length := by
      cases hc : w.heap[x]? with
      | none =>
        rw [hc] at hx
        simp at hx
      | some o => exact lt_of_getElem? hc
    have h1 : (w.heap.set x Obj.freed)[a]? = some (.context c) := by
      rw [List.getElem?_set_ne hxa]; exact h0
    refine ⟨{ w with heap := (w.heap.set x .freed).set a (.context (f c)),
                     trace := w.trace ++ [.delete r x] }, ?_, ?_, ?_, ?_, ?_, rfl, rfl⟩
    · simp only [deleteAndClear, deleteObj_ok w r x hx, bind, Except.bind]
      exact modifyContext_ok _ a c f h1
    · simp [List.getElem?_set, hlt]
    · intro y hya hxy
      have hxy1 : x ≠ y := fun h => hxy (by rw [h])
      simp [List.getElem?_set, Ne.symm hya, hxy1]
    · simp
    · intro y hy
      cases hy
      simp [List.getElem?_set, Ne.symm hxa, hxlt]

theorem destroy_eq (w : World E C Z) (a : Addr) (c : ZrtpContext) (h : Owned w a c) :
    ∃ w1, zrtp_DestroyWrapper w (some a) = .ok w1 ∧
      w1.heap[a]? = some .freed ∧
      w1.trace = w.trace ++ presentReleases c ++ [.delete .context a] ∧
      (∀ x, c.zrtpEngine = some x → w1.heap[x]? = some .freed) ∧
      (∀ x, c.zrtpCallback = some x → w1.heap[x]? = some .freed) ∧
      (∀ x, c.configure = some x → w1.heap[x]? = some .freed) ∧
      (∀ y, y ≠ a → c.zrtpEngine ≠ some y → c.zrtpCallback ≠ some y → c.configure ≠ some y →
        w1.heap[y]? = w.heap[y]?) ∧
      w1.zidCache = w.zidCache ∧ w1.home = w.home := by
  obtain ⟨h0, h1, h2, h3⟩ := h
  have hEa : ∀ e, c.zrtpEngine = some e → e ≠ a := fun e he => by
    obtain ⟨x, hx⟩ := h1 e he
    exact ne_of_cells hx h0 (by simp [Obj.resource])
  have hBa : ∀ k, c.zrtpCallback = some k → k ≠ a := fun k hk => by
    obtain ⟨x, hx⟩ := h2 k hk
    exact ne_of_cells hx h0 (by simp [Obj.resource])
  have hGa : ∀ k, c.configure = some k → k ≠ a := fun k hk => by
    obtain ⟨x, hx⟩ := h3 k hk
    exact ne_of_cells hx h0 (by simp [Obj.resource])
  have hEB : ∀ k, c.zrtpCallback = some k → c.zrtpEngine ≠ some k := fun k hk he => by
    obtain ⟨x, hx⟩ := h2 k hk
    obtain ⟨y, hy⟩ := h1 k he
    rw [hx] at hy; cases hy
  have hEG : ∀ k, c.configure = some k → c.zrtpEngine ≠ some k := fun k hk he => by
    obtain ⟨x, hx⟩ := h3 k hk
    obtain ⟨y, hy⟩ := h1 k he
    rw [hx] at hy; cases hy
  have hBG : ∀ k, c.configure = some k → c.zrtpCallback ≠ some k := fun k hk he => by
    obtain ⟨x, hx⟩ := h3 k hk
    obtain ⟨y, hy⟩ := h2 k he
    rw [hx] at hy; cases hy
  have hE : ∀ e, c.zrtpEngine = some e →
      e ≠ a ∧ (w.heap[e]?).bind Obj.resource = some .engine := fun e he => by
    obtain ⟨x, hx⟩ := h1 e he
    exact ⟨hEa e he, resource_of_cell hx rfl⟩
  obtain ⟨w1, e1, a1, f1, t1, d1, z1, m1⟩ := deleteAndClear_ok w a c .engine c.zrtpEngine
    (fun c => { c with zrtpEngine := none }) h0 hE
  have hB : ∀ k, c.zrtpCallback = some k →
      k ≠ a ∧ (w1.heap[k]?).bind Obj.resource = some .callback := fun k hk => by
    obtain ⟨x, hx⟩ := h2 k hk
    exact ⟨hBa k hk, by rw [f1 k (hBa k hk) (hEB k hk)]; exact resource_of_cell hx rfl⟩
  obtain ⟨w2, e2, a2, f2, t2, d2, z2, m2⟩ := deleteAndClear_ok w1 a _ .callback c.zrtpCallback
    (fun c => { c with zrtpCallback := none }) a1 hB
  have hG : ∀ k, c.configure = some k →
      k ≠ a ∧ (w2.heap[k]?).bind Obj.resource = some .configure := fun k hk => by
    obtain ⟨x, hx⟩ := h3 k hk
    exact ⟨hGa k hk, by
      rw [f2 k (hGa k hk) (hBG k hk), f1 k (hGa k hk) (hEG k hk)]
      exact resource_of_cell hx rfl⟩
  obtain ⟨w3, e3, a3, f3, t3, d3, z3, m3⟩ := deleteAndClear_ok w2 a _ .configure c.configure
    (fun c => { c with configure := none }) a2 hG
  have hlt := lt_of_getElem? a3
  have hset : ∀ y, y ≠ a → (w3.heap.set a Obj.freed)[y]? = w3.heap[y]? := fun y hy =>
    List.getElem?_set_ne (Ne.symm hy)
  refine ⟨{ w3 with heap := w3.heap.set a .freed,
                    trace := w3.trace ++ [.delete .context a] }, ?_, ?_, ?_, ?_, ?_, ?_, ?_,
    ?_, ?_⟩
  · simp only [zrtp_DestroyWrapper, getEngine, getCallback, getConfig, derefContext, h0,
      Except.map, bind, Except.bind, e1, e2, e3]
    exact deleteObj_ok w3 .context a (resource_of_cell a3 rfl)
  · simp [List.getElem?_set, hlt]
  · simp only [t3, t2, t1, presentReleases, List.append_assoc]
    cases c.zrtpEngine <;> cases c.zrtpCallback <;> cases c.configure <;> rfl
  · intro x hx
    show (w3.heap.set a Obj.freed)[x]? = some Obj.freed
    have hGx : c.configure ≠ some x := fun hg => hEG x hg hx
    have hBx : c.zrtpCallback ≠ some x := fun hb => hEB x hb hx
    rw [hset x (hEa x hx), f3 x (hEa x hx) hGx, f2 x (hEa x hx) hBx]
    exact d1 x hx
  · intro x hx
    show (w3.heap.set a Obj.freed)[x]? = some Obj.freed
    have hGx : c.configure ≠ some x := fun hg => hBG x hg hx
    rw [hset x (hBa x hx), f3 x (hBa x hx) hGx]
    exact d2 x hx
  · intro x hx
    show (w3.heap.set a Obj.freed)[x]? = some Obj.freed
    rw [hset x (hGa x hx)]
    exact d3 x hx
  · intro y hya hye hyb hyg
    show (w3.heap.set a Obj.freed)[y]? = w.heap[y]?
    rw [hset y hya, f3 y hya hyg, f2 y hya hyb, f1 y hya hye]
  · show w3.zidCache = w.zidCache
    rw [z3, z2, z1]
  · show w3.home = w.home
    rw [m3, m2, m1]

/-- C5. Destroying an absent context releases nothing: the process state, heap and trace
included, is unchanged.  Destroying a live context whose pointers are valid releases exactly its
present sub-resources and then the context itself: the cells of the engine, the callback bridge
and the configuration it points to are freed, the context's own cell is freed, every other cell
of the heap is as before, and the releases happen in the order engine, callback bridge,
configuration, each present one once, followed by the context. -/
theorem destroy_release_order (w : World E C Z) (a : Addr) (c : ZrtpContext) :
    zrtp_DestroyWrapper w none = .ok w ∧
    (Owned w a c → ∃ w1, zrtp_DestroyWrapper w (some a) = .ok w1 ∧
      w1.trace = w.trace ++ presentReleases c ++ [.delete .context a] ∧
      (∀ x, c.zrtpEngine = some x → w1.heap[x]? = some .freed) ∧
      (∀ x, c.zrtpCallback = some x → w1.heap[x]? = some .freed) ∧
      (∀ x, c.configure = some x → w1.heap[x]? = some .freed) ∧
      w1.heap[a]? = some .freed ∧
      (∀ y, y ≠ a → c.zrtpEngine ≠ some y → c.zrtpCallback ≠ some y → c.configure ≠ some y →
        w1.heap[y]? = w.heap[y]?) ∧
      w1.zidCache = w.zidCache ∧ w1.home = w.home) := by
  refine ⟨rfl, fun h => ?_⟩
  obtain ⟨w1, h1, h2, h3, h4, h5, h6, h7, h8, h9⟩ := destroy_eq w a c h
  exact ⟨w1, h1, h3, h4, h5, h6, h2, h7, h8, h9⟩

/-- C5 at a concrete input: an Initialized context releases engine, callback bridge and
configuration in this order, then itself, and all four cells end up freed. -/
theorem destroy_release_order_witness :
    Owned (sessionWorld []) 0
        { configure := some 2, zrtpEngine := some 3, zrtpCallback := some 1, userData := none } ∧
      ∃ w1, zrtp_DestroyWrapper (sessionWorld []) (some 0) = .ok w1 ∧
        w1.trace = [.delete .engine 3, .delete .callback 1, .delete .configure 2,
          .delete .context 0] ∧
        w1.heap[3]? = some .freed ∧ w1.heap[1]? = some .freed ∧ w1.heap[2]? = some .freed ∧
        w1.heap[0]? = some .freed := by
  have hO : Owned (sessionWorld []) 0
      { configure := some 2, zrtpEngine := some 3, zrtpCallback := some 1, userData := none } := by
    refine ⟨rfl, ?_, ?_, ?_⟩
    all_goals
      intro k hk
      cases hk
      exact ⟨_, rfl⟩
  obtain ⟨w1, h1, h2, h3, h4, h5, h6, _⟩ := (destroy_release_order (sessionWorld []) 0 _).2 hO
  exact ⟨hO, w1, h1, h2, h3 3 rfl, h4 1 rfl, h5 2 rfl, h6⟩

/-- C4 (amended). Destroying an absent context is a no-op, so it can be repeated.  Destroying a
live context whose pointers are valid succeeds and releases the context itself, after its
present sub-resources, whose cells are freed too; the handle is then dangling, and a second
destroy through it is not a no-op but a read of released memory. -/
theorem destroy_once (w : World E C Z) (a : Addr) (c : ZrtpContext) :
    zrtp_DestroyWrapper w none = .ok w ∧
    (Owned w a c → ∃ w1, zrtp_DestroyWrapper w (some a) = .ok w1 ∧
      w1.heap[a]? = some .freed ∧
      zrtp_DestroyWrapper w1 (some a) = .error .useAfterFree ∧
      (∀ x, c.zrtpEngine = some x → w1.heap[x]? = some .freed) ∧
      (∀ x, c.zrtpCallback = some x → w1.heap[x]? = some .freed) ∧
      (∀ x, c.configure = some x → w1.heap[x]? = some .freed)) := by
  refine ⟨rfl, fun h => ?_⟩
  obtain ⟨w1, h1, h2, _, h4, h5, h6, _⟩ := destroy_eq w a c h
  refine ⟨w1, h1, h2, ?_, h4, h5, h6⟩
  simp [zrtp_DestroyWrapper, getEngine, derefContext, h2, Except.map, bind, Except.bind]

/-- C4 (amended) at a concrete input: a context that holds a configuration only. -/
theorem destroy_once_witness :
    Owned configOnlyWorld 0
        { configure := some 1, zrtpEngine := none, zrtpCallback := none, userData := none } ∧
      ∃ w1, zrtp_DestroyWrapper configOnlyWorld (some 0) = .ok w1 ∧
        w1.heap[0]? = some .freed ∧
        zrtp_DestroyWrapper w1 (some 0) = .error .useAfterFree ∧
        w1.heap[1]? = some .freed := by
  have hO : Owned configOnlyWorld 0
      { configure := some 1, zrtpEngine := none, zrtpCallback := none, userData := none } := by
    refine ⟨rfl, ?_, ?_, ?_⟩
    · intro k hk
      cases hk
    · intro k hk
      cases hk
    · intro k hk
      cases hk
      exact ⟨_, rfl⟩
  obtain ⟨w1, h1, h2, h3, _, _, h6⟩ := (destroy_once configOnlyWorld 0 _).2 hO
  exact ⟨hO, w1, h1, h2, h3, h6 1 rfl⟩

/-- C4 as stated fails: after the first destroy of a fresh context, the second destroy on the
same handle does not return the state unchanged; it reads the released context. -/
theorem destroy_twice_not_noop :
    ∃ w1, zrtp_DestroyWrapper freshWorld (some 0) = .ok w1 ∧
      zrtp_DestroyWrapper w1 (some 0) = .error .useAfterFree ∧
      zrtp_DestroyWrapper w1 (some 0) ≠ .ok w1 :=
  ⟨_, rfl, rfl, fun h => by cases h⟩

/-! ## C2, C3, C10: initialize -/

theorem initialize_ok (zr : ZRtp E) (cf : ZrtpConfigure C A) (zc : ZIDCache Z)
    (w : World E C Z) (a : Addr) (c : ZrtpContext) (cb : Option Nat) (id : String)
    (zidFilename : Option String) (userData : Option Nat) (mitmMode : Int)
    (h : w.heap[a]? = some (.context c)) :
    ∃ w1, zrtp_initializeZrtpEngine zr cf zc w (some a) cb (some id) zidFilename userData mitmMode
        = .ok w1 ∧
      w1.heap[a]? = some (.context
        { configure := some (c.configure.getD (w.heap.length + 1)),
          zrtpEngine := some (w1.heap.length - 1),
          zrtpCallback := some w.heap.length,
          userData := userData }) ∧
      (∀ b, b ≠ a → ctxOf w1.heap b = ctxOf w.heap b) ∧
      w1.trace = (zrtp_initZidFile zc w zidFilename).2.trace ++
        [.construct (zc.getZid (zrtp_initZidFile zc w zidFilename).2.zidCache)
          (some w.heap.length) id
          (match c.configure with
           | none => some (w.heap.length + 1)
           | some _ => none)
          (if mitmMode = 0 then false else true)] ∧
      (c.configure = none →
        w1.heap[w.heap.length + 1]? = some (.configure (cf.setStandardConfig cf.new).2)) ∧
      w1.zidCache = (zrtp_initZidFile zc w zidFilename).2.zidCache := by
  have hlt := lt_of_getElem? h
  cases hk : c.configure with
  | none =>
    by_cases hz : zc.isOpen w.zidCache <;>
    simp [zrtp_initializeZrtpEngine, alloc, modifyContext, derefContext, bind, Except.bind, pure,
      Except.pure, callConfig, List.getElem?_append_left, hlt, h, List.getElem?_set, hk,
      List.getElem_append_right, zrtp_initZidFile, hz] <;>
    · intro b hb
      rw [ctxOf_append _ _ _ (by simp [Obj.resource]), ctxOf_set_ne _ _ hb]
  | some k =>
    by_cases hz : zc.isOpen w.zidCache <;>
    simp [zrtp_initializeZrtpEngine, alloc, modifyContext, derefContext, bind, Except.bind, pure,
      Except.pure, callConfig, List.getElem?_append_left, hlt, h, List.getElem?_set, hk,
      List.getElem_append_right, zrtp_initZidFile, hz] <;>
    · intro b hb
      rw [ctxOf_append _ _ _ (by simp [Obj.resource]), ctxOf_set_ne _ _ hb]

/-- Initialize with a `NULL` client id stops at the construction of the id string: nothing is
created and no state is returned. -/
theorem initialize_null_id (zr : ZRtp E) (cf : ZrtpConfigure C A) (zc : ZIDCache Z)
    (w : World E C Z) (zrtpContext : Option Addr) (cb : Option Nat)
    (zidFilename : Option String) (userData : Option Nat) (mitmMode : Int) :
    zrtp_initializeZrtpEngine zr cf zc w zrtpContext cb none zidFilename userData mitmMode
      = .error .nullDeref := rfl

/-- What initialize does with the configuration.  On a live context without a configuration,
initialize creates one, resets it to the standard set, stores it in the context and passes it to
the engine constructor.  On a live context with an attached configuration the context keeps it,
but the engine constructor receives `NULL`. -/
theorem initialize_config_argument (zr : ZRtp E) (cf : ZrtpConfigure C A) (zc : ZIDCache Z)
    (w : World E C Z) (a : Addr) (c : ZrtpContext) (cb : Option Nat) (id : String)
    (zidFilename : Option String) (userData : Option Nat) (mitmMode : Int)
    (h : w.heap[a]? = some (.context c)) :
    ∃ w1 c1 zid callback mitm pre passed,
      zrtp_initializeZrtpEngine zr cf zc w (some a) cb (some id) zidFilename userData mitmMode
        = .ok w1 ∧
      w1.heap[a]? = some (.context c1) ∧
      w1.trace = pre ++ [.construct zid callback id passed mitm] ∧
      (c.configure = none → passed = some (w.heap.length + 1) ∧ c1.configure = passed ∧
        w1.heap[w.heap.length + 1]? = some (.configure (cf.setStandardConfig cf.new).2)) ∧
      (∀ k, c.configure = some k → passed = none ∧ c1.configure = some k) := by
  obtain ⟨w1, h1, h2, _, h4, h5, _⟩ :=
    initialize_ok zr cf zc w a c cb id zidFilename userData mitmMode h
  refine ⟨w1, _, _, _, _, _, _, h1, h2, h4, ?_, ?_⟩
  · intro hc
    simp [hc, h5 hc]
  · intro k hk
    simp [hk]

/-- C2, the failing input: after `zrtp_CreateWrapper` and `zrtp_InitializeConfig` the context
holds the configuration at address 1; `zrtp_initializeZrtpEngine` keeps it in the context but
constructs the engine with a `NULL` configuration. -/
theorem initialize_drops_attached_config :
    ∃ w1 w2, zrtp_InitializeConfig sampleConfigure freshWorld (some 0) = .ok (1, w1) ∧
      ctxOf w1.heap 0 = some
        { configure := some 1, zrtpEngine := none, zrtpCallback := none, userData := none } ∧
      zrtp_initializeZrtpEngine sampleZRtp sampleConfigure sampleZIDCache w1 (some 0) none
        (some "client") none none 0 = .ok w2 ∧
      ctxOf w2.heap 0 = some
        { configure := some 1, zrtpEngine := some 3, zrtpCallback := some 2, userData := none } ∧
      w2.trace = [.zidOpen ".GNUccRTP.zid",
        .construct [1, 2, 3, 4, 5, 6, 7, 8, 9, 10, 11, 12] (some 2) "client" none false] :=
  ⟨_, _, rfl, rfl, rfl, rfl, rfl⟩

/-- C3 (amended). Initialize has no failure path for the identity store: the status that
opening the cache reports is discarded.  On every live context `c` at `a`, for every argument
list with a present client id and every behaviour of the cache, it returns this state: the
context holds the new callback bridge, the given `userData`, its configuration (the attached
one, or a new one reset to the standard set) and the new engine; the heap gains the callback
bridge, the new configuration if one was created, and one engine constructed from the
identifier the cache returns after the open, the callback bridge, the client id, the local
`configure` and the mitm flag; the cache is as the open left it (`z1`), whatever status the
open reported; the trace gains the open, if the cache was closed, and the construction. -/
theorem initialize_always_constructs (zr : ZRtp E) (cf : ZrtpConfigure C A) (zc : ZIDCache Z)
    (w : World E C Z) (a : Addr) (c : ZrtpContext) (cb : Option Nat) (id : String)
    (zidFilename : Option String) (userData : Option Nat) (mitmMode : Int)
    (path : String) (z1 : Z)
    (h : w.heap[a]? = some (.context c))
    (hpath : path =
      match zidFilename with
      | some f => f
      | none =>
        match w.home with
        | some home => home ++ "/." ++ "GNUccRTP.zid"
        | none => ".GNUccRTP.zid")
    (hz1 : z1 = if zc.isOpen w.zidCache then w.zidCache else (zc.openFile path w.zidCache).2) :
    zrtp_initializeZrtpEngine zr cf zc w (some a) cb (some id) zidFilename userData mitmMode =
      .ok { heap :=
              w.heap.set a (.context
                { configure := some (c.configure.getD (w.heap.length + 1)),
                  zrtpEngine :=
                    some (if c.configure = none then w.heap.length + 2 else w.heap.length + 1),
                  zrtpCallback := some w.heap.length,
                  userData := userData })
              ++ [.callback { cb := cb, ctx := some a }]
              ++ (if c.configure = none then [.configure (cf.setStandardConfig cf.new).2]
                  else [])
              ++ [.engine (zr.new (zc.getZid z1) (some w.heap.length) id
                    (if c.configure = none then some (w.heap.length + 1) else none)
                    (if mitmMode = 0 then false else true))],
            zidCache := z1,
            home := w.home,
            trace := w.trace ++ (if zc.isOpen w.zidCache then [] else [.zidOpen path])
              ++ [.construct (zc.getZid z1) (some w.heap.length) id
                    (if c.configure = none then some (w.heap.length + 1) else none)
                    (if mitmMode = 0 then false else true)] } := by
  have hlt := lt_of_getElem? h
  have hdot : ("." : String) ++ "GNUccRTP.zid" = ".GNUccRTP.zid" := rfl
  subst hz1
  rcases zidFilename with _ | f <;> rcases hh : w.home with _ | home <;>
    simp only [hh] at hpath <;> subst hpath <;>
    rcases hk : c.configure with _ | k <;> by_cases hz : zc.isOpen w.zidCache <;>
    simp [zrtp_initializeZrtpEngine, alloc, modifyContext, derefContext, bind, Except.bind, pure,
      Except.pure, callConfig, List.getElem?_append_left, hlt, h, List.getElem?_set, hk,
      List.getElem_append_right, zrtp_initZidFile, hz, hh, hdot]

/-- C3 (amended) at a concrete input: a fresh context, a file name, and a cache whose open
reports failure and stays closed. -/
theorem initialize_always_constructs_witness :
    zrtp_initializeZrtpEngine sampleZRtp sampleConfigure failingZIDCache freshWorld (some 0)
        (some 5) (some "client") (some "/tmp/ids.zid") (some 9) 1 =
      .ok { heap := [.context { configure := some 2, zrtpEngine := some 3,
                                zrtpCallback := some 1, userData := some 9 },
                     .callback { cb := some 5, ctx := some 0 },
                     .configure ["S256", "AES1", "DH3k", "B32", "HS32"],
                     .engine []],
            zidCache := false,
            home := none,
            trace := [.zidOpen "/tmp/ids.zid", .construct [] (some 1) "client" (some 2) true] } :=
  initialize_always_constructs sampleZRtp sampleConfigure failingZIDCache freshWorld 0
    { configure := none, zrtpEngine := none, zrtpCallback := none, userData := none }
    (some 5) "client" (some "/tmp/ids.zid") (some 9) 1 "/tmp/ids.zid" false rfl rfl rfl

/-- C3 as stated fails: the cache reports failure (-1) for the open, and initialize still
constructs an engine and leaves engine and callback bridge present in the context. -/
theorem initialize_ignores_open_failure :
    (zrtp_initZidFile failingZIDCache freshWorld none).1 = -1 ∧
      (failingZIDCache.openFile ".GNUccRTP.zid" freshWorld.zidCache).1 = -1 ∧
      ∃ w1, zrtp_initializeZrtpEngine sampleZRtp sampleConfigure failingZIDCache freshWorld
          (some 0) none (some "client") none none 0 = .ok w1 ∧
        ctxOf w1.heap 0 = some
          { configure := some 2, zrtpEngine := some 3, zrtpCallback := some 1,
            userData := none } ∧
        w1.heap[3]? = some (.engine []) ∧
        w1.trace = [.zidOpen ".GNUccRTP.zid", .construct [] (some 1) "client" (some 2) false] :=
  ⟨rfl, rfl, _, rfl, rfl, rfl, rfl⟩

/-- C10 (amended). When initialize is given no identity-store path and the cache is not open,
the cache's open is invoked once, on the closed cache, with this path: the value of `HOME`
followed by "/." and the default file name, or, when `HOME` is unset, "." followed by the
default file name, the relative path ".GNUccRTP.zid" in the working directory.  The cache is
left as that open returns it. -/
theorem default_zid_path (zr : ZRtp E) (cf : ZrtpConfigure C A) (zc : ZIDCache Z)
    (w : World E C Z) (a : Addr) (c : ZrtpContext) (cb : Option Nat) (id : String)
    (userData : Option Nat) (mitmMode : Int) (path : String)
    (h : w.heap[a]? = some (.context c)) (hz : zc.isOpen w.zidCache = false)
    (hpath : path =
      match w.home with
      | some home => home ++ "/." ++ "GNUccRTP.zid"
      | none => ".GNUccRTP.zid") :
    ∃ w1 ev, zrtp_initializeZrtpEngine zr cf zc w (some a) cb (some id) none userData mitmMode
        = .ok w1 ∧
      w1.zidCache = (zc.openFile path w.zidCache).2 ∧
      w1.trace = w.trace ++ [.zidOpen path, ev] := by
  obtain ⟨w1, h1, _, _, h4, _, h6⟩ :=
    initialize_ok zr cf zc w a c cb id none userData mitmMode h
  have hdot : ("." : String) ++ "GNUccRTP.zid" = ".GNUccRTP.zid" := rfl
  have hp : (match w.home with
      | some home => home ++ "/."
      | none => ".") ++ "GNUccRTP.zid" = path := by
    rw [hpath]
    cases w.home with
    | some home => rfl
    | none => exact hdot
  have hc : (zrtp_initZidFile zc w none).2.zidCache = (zc.openFile path w.zidCache).2 := by
    simp only [zrtp_initZidFile, hz, hp]
    rfl
  have ht : (zrtp_initZidFile zc w none).2.trace = w.trace ++ [.zidOpen path] := by
    simp only [zrtp_initZidFile, hz, hp]
    rfl
  refine ⟨w1, .construct (zc.getZid (zc.openFile path w.zidCache).2) (some w.heap.length) id
    (match c.configure with
     | none => some (w.heap.length + 1)
     | some _ => none)
    (if mitmMode = 0 then false else true), h1, ?_, ?_⟩
  · rw [h6, hc]
  · rw [h4, ht, hc, List.append_assoc]
    rfl

/-- C10 (amended) at a concrete input: `HOME` is "/home/alice" and the cache records the path
it is opened with. -/
theorem default_zid_path_witness :
    ∃ w1 ev, zrtp_initializeZrtpEngine sampleZRtp sampleConfigure recordingZIDCache
        (recordingWorld (some "/home/alice")) (some 0) none (some "client") none none 0
          = .ok w1 ∧
      w1.zidCache = some "/home/alice/.GNUccRTP.zid" ∧
      w1.trace = [.zidOpen "/home/alice/.GNUccRTP.zid", ev] := by
  obtain ⟨w1, ev, h1, h2, h3⟩ :=
    default_zid_path sampleZRtp sampleConfigure recordingZIDCache
      (recordingWorld (some "/home/alice")) 0 _ none "client" none 0
      "/home/alice/.GNUccRTP.zid" rfl rfl rfl
  exact ⟨w1, ev, h1, h2, h3⟩

/-- C10 as stated fails: with `HOME` unset, no path given and the cache closed, the cache is
opened with ".GNUccRTP.zid", which is not "./GNUccRTP.zid". -/
theorem default_zid_path_no_slash :
    (recordingWorld none).home = none ∧
      ∃ w1, zrtp_initializeZrtpEngine sampleZRtp sampleConfigure recordingZIDCache
          (recordingWorld none) (some 0) none (some "client") none none 0 = .ok w1 ∧
        w1.zidCache = some ".GNUccRTP.zid" ∧
        w1.zidCache ≠ some "./GNUccRTP.zid" ∧
        w1.trace.head? = some (.zidOpen ".GNUccRTP.zid") ∧
        Event.zidOpen "./GNUccRTP.zid" ∉ w1.trace :=
  ⟨rfl, _, rfl, rfl, by decide, rfl, by decide⟩

/-! ## C6: the context invariant over the public call surface -/

theorem ctxOf_set_of_nonctx (l : List (Obj E C)) (k : Nat) (o o1 : Obj E C)
    (h : l[k]? = some o) (ho : o.resource ≠ some .context) (ho1 : o1.resource ≠ some .context) :
    SameContexts l (l.set k o1) := by
  intro b
  by_cases hb : b = k
  · subst hb
    have hlt := lt_of_getElem? h
    have h1 : ctxOf l b = none := by
      cases o <;> simp_all [ctxOf, Obj.resource]
    have h2 : ctxOf (l.set b o1) b = none := by
      cases o1 <;> simp_all [ctxOf, Obj.resource, List.getElem?_set]
    rw [h1, h2]
  · exact ctxOf_set_ne l o1 hb

theorem callEngine_heap {α : Type} (w w1 : World E C Z) (e : Addr) (c : Call) (m : E → α × E)
    (r : α) (h : callEngine w e c m = .ok (r, w1)) : SameContexts w.heap w1.heap := by
  unfold callEngine at h
  split at h
  · rename_i x hx
    cases h
    exact ctxOf_set_of_nonctx _ _ _ _ hx (by simp [Obj.resource]) (by simp [Obj.resource])
  · cases h
  · cases h

theorem callConfig_heap {α : Type} (w w1 : World E C Z) (k : Addr) (m : C → α × C)
    (r : α) (h : callConfig w k m = .ok (r, w1)) : SameContexts w.heap w1.heap := by
  unfold callConfig at h
  split at h
  · rename_i x hx
    cases h
    exact ctxOf_set_of_nonctx _ _ _ _ hx (by simp [Obj.resource]) (by simp [Obj.resource])
  · cases h
  · cases h

theorem okOnly_bind {α β : Type} (P : β → Prop) (x : Except Fault α) (f : α → Except Fault β) :
    OkOnly P (Except.bind x f) ↔ OkOnly (fun a => OkOnly P (f a)) x := by
  cases x <;> rfl

theorem okOnly_map {α β : Type} (P : β → Prop) (x : Except Fault α) (f : α → β) :
    OkOnly P (Except.map f x) ↔ OkOnly (fun a => P (f a)) x := by
  cases x <;> rfl

theorem okOnly_ok {α : Type} (P : α → Prop) (a : α) :
    OkOnly P (Except.ok a : Except Fault α) ↔ P a := Iff.rfl

theorem okOnly_error {α : Type} (P : α → Prop) (f : Fault) :
    OkOnly P (Except.error f : Except Fault α) ↔ True := Iff.rfl

theorem okOnly_elim {α : Type} {P : α → Prop} {x : Except Fault α} {a : α}
    (h : OkOnly P x) (hx : x = .ok a) : P a := by
  subst hx; exact h

theorem sameContexts_refl (l : List (Obj E C)) : SameContexts l l := fun _ => rfl

theorem okOnly_callEngine {α : Type} (w : World E C Z) (e : Addr) (c : Call) (m : E → α × E)
    (Q : α × World E C Z → Prop)
    (hQ : ∀ r w1, SameContexts w.heap w1.heap → Q (r, w1)) : OkOnly Q (callEngine w e c m) := by
  cases hc : callEngine w e c m with
  | error f => trivial
  | ok v => exact hQ v.1 v.2 (callEngine_heap w v.2 e c m v.1 hc)

theorem okOnly_callConfig {α : Type} (w : World E C Z) (k : Addr) (m : C → α × C)
    (Q : α × World E C Z → Prop)
    (hQ : ∀ r w1, SameContexts w.heap w1.heap → Q (r, w1)) : OkOnly Q (callConfig w k m) := by
  cases hc : callConfig w k m with
  | error f => trivial
  | ok v => exact hQ v.1 v.2 (callConfig_heap w v.2 k m v.1 hc)

theorem facade_heap (zr : ZRtp E) (op : FacadeOp) (w : World E C Z) (ctx : Option Addr) :
    OkOnly (fun r => SameContexts w.heap r.2.heap) (facade zr op w ctx) := by
  rcases hg : getEngine w ctx with f | (_ | e) <;> cases op
  all_goals
    simp only [facade, zrtp_startZrtpEngine, zrtp_stopZrtpEngine, zrtp_processZrtpMessage,
        zrtp_processTimeout, zrtp_setAuxSecret, zrtp_inState, zrtp_SASVerified,
        zrtp_resetSASVerified, zrtp_getHelloHash, zrtp_getPeerHelloHash, zrtp_getMultiStrParams,
        zrtp_setMultiStrParams, zrtp_isMultiStream, zrtp_isMultiStreamAvailable,
        zrtp_acceptEnrollment, zrtp_isEnrollmentMode, zrtp_setEnrollmentMode, isPeerEnrolled,
        zrtp_sendSASRelayPacket, zrtp_getSasType, zrtp_getSasHash, zrtp_setSignatureData,
        zrtp_getSignatureData, zrtp_getSignatureLength, zrtp_conf2AckSecure, zrtp_getPeerZid,
        zrtp_getNumberSupportedVersions, zrtp_getCurrentProtocolVersion, hg, bind,
        pure, Except.pure, okOnly_map, okOnly_bind, okOnly_ok, okOnly_error]
  all_goals
    repeat' split
  all_goals
    try simp only [okOnly_map, okOnly_bind, okOnly_ok, okOnly_error]
  all_goals
    first
    | trivial
    | exact sameContexts_refl _
    | (apply okOnly_callEngine
       intro r w1 hw
       simp only [okOnly_ok]
       repeat' split
       all_goals exact hw)

theorem okOnly_mono {α : Type} {P Q : α → Prop} {x : Except Fault α} (h : ∀ a, P a → Q a)
    (hx : OkOnly P x) : OkOnly Q x := by
  cases x with
  | error f => trivial
  | ok a => exact h a hx

theorem okOnly_getConfig_bind {β : Type} (w : World E C Z) (ctx : Option Addr)
    (f : Option Addr → Except Fault β) (Q : β → Prop) (h : ∀ k, OkOnly Q (f k)) :
    OkOnly Q (Except.bind (getConfig w ctx) f) := by
  rw [okOnly_bind]
  cases getConfig w ctx with
  | error e => trivial
  | ok k => exact h k

theorem config_heap (cf : ZrtpConfigure C A) (w : World E C Z) (ctx : Option Addr) :
    OkOnly (fun r => SameContexts w.heap r.2.heap) (zrtp_setStandardConfig cf w ctx) ∧
    OkOnly (fun r => SameContexts w.heap r.2.heap) (zrtp_setMandatoryOnly cf w ctx) ∧
    (∀ t algo, OkOnly (fun r => SameContexts w.heap r.2.heap) (zrtp_addAlgo cf w ctx t algo)) ∧
    (∀ t algo i,
      OkOnly (fun r => SameContexts w.heap r.2.heap) (zrtp_addAlgoAt cf w ctx t algo i)) ∧
    (∀ t algo, OkOnly (fun r => SameContexts w.heap r.2.heap) (zrtp_removeAlgo cf w ctx t algo)) ∧
    (∀ t, OkOnly (fun r => SameContexts w.heap r.2.heap) (zrtp_getNumConfiguredAlgos cf w ctx t)) ∧
    (∀ t i, OkOnly (fun r => SameContexts w.heap r.2.heap) (zrtp_getAlgoAt cf w ctx t i)) ∧
    (∀ t algo,
      OkOnly (fun r => SameContexts w.heap r.2.heap) (zrtp_containsAlgo cf w ctx t algo)) ∧
    (∀ y, OkOnly (fun r => SameContexts w.heap r.2.heap) (zrtp_setTrustedMitM cf w ctx y)) ∧
    OkOnly (fun r => SameContexts w.heap r.2.heap) (zrtp_isTrustedMitM cf w ctx) ∧
    (∀ y, OkOnly (fun r => SameContexts w.heap r.2.heap) (zrtp_setSasSignature cf w ctx y)) ∧
    OkOnly (fun r => SameContexts w.heap r.2.heap) (zrtp_isSasSignature cf w ctx) := by
  refine ⟨?_, ?_, ?_, ?_, ?_, ?_, ?_, ?_, ?_, ?_, ?_, ?_⟩
  all_goals intros
  all_goals
    simp only [zrtp_setStandardConfig, zrtp_setMandatoryOnly, zrtp_addAlgo, zrtp_addAlgoAt,
      zrtp_removeAlgo, zrtp_getNumConfiguredAlgos, zrtp_getAlgoAt, zrtp_containsAlgo,
      zrtp_setTrustedMitM, zrtp_isTrustedMitM, zrtp_setSasSignature, zrtp_isSasSignature,
      bind, pure, Except.pure]
  all_goals
    repeat' split
  all_goals
    first
    | exact sameContexts_refl _
    | (apply okOnly_getConfig_bind
       intro k
       repeat' split
       all_goals
         first
         | exact sameContexts_refl _
         | (try rw [okOnly_bind]
            apply okOnly_callConfig
            intro r w1 hw
            exact hw))

theorem modifyContext_inv (w w1 : World E C Z) (p : Option Addr) (f : ZrtpContext → ZrtpContext)
    (h : modifyContext w p f = .ok w1) :
    ∃ a c, p = some a ∧ w.heap[a]? = some (.context c) ∧
      w1.heap = w.heap.set a (.context (f c)) := by
  unfold modifyContext at h
  split at h
  · cases h
  · rename_i a
    split at h
    · rename_i c hc
      cases h
      exact ⟨a, c, rfl, hc, rfl⟩
    · cases h
    · cases h

theorem deleteObj_inv (w w1 : World E C Z) (r : Resource) (x : Addr)
    (h : deleteObj w r x = .ok w1) : w1.heap = w.heap.set x .freed := by
  unfold deleteObj at h
  split at h
  · cases h
  · split at h
    · cases h
    · split at h
      · cases h; rfl
      · cases h

theorem ctxOf_set_freed (l : List (Obj E C)) (x b : Nat) (c : ZrtpContext)
    (h : ctxOf (l.set x .freed) b = some c) : b ≠ x ∧ ctxOf l b = some c := by
  by_cases hb : b = x
  · subst hb
    simp [ctxOf, List.getElem?_set] at h
  · exact ⟨hb, by rw [← ctxOf_set_ne l .freed hb]; exact h⟩

theorem ctxOf_append_ctx (l : List (Obj E C)) (c0 c : ZrtpContext) (b : Nat)
    (h : ctxOf (l ++ [.context c0]) b = some c) : ctxOf l b = some c ∨ c = c0 := by
  by_cases hb : b < l.length
  · left
    rw [ctxOf_eq_some, List.getElem?_append_left hb] at h
    exact ctxOf_eq_some.2 h
  · right
    rw [ctxOf_eq_some, List.getElem?_append_right (by omega)] at h
    have := List.getElem?_mem h
    simp at this
    exact this

theorem engineBound_configure (c : ZrtpContext) (k : Addr) (h : EngineBound c) :
    EngineBound { c with configure := some k } :=
  ⟨h.1, fun _ => by simp⟩

theorem create_inv (w : World E C Z) (uninit : Option Nat) (h : Inv w.heap) :
    Inv (zrtp_CreateWrapper w uninit).2.heap := by
  intro b c hc
  rcases ctxOf_append_ctx _ _ _ _ hc with h1 | h1
  · exact h b c h1
  · subst h1
    exact ⟨by simp, by simp⟩

theorem initializeConfig_inv (cf : ZrtpConfigure C A) (w : World E C Z) (ctx : Option Addr)
    (h : Inv w.heap) : OkOnly (fun r => Inv r.2.heap) (zrtp_InitializeConfig cf w ctx) := by
  cases hx : zrtp_InitializeConfig cf w ctx with
  | error f => trivial
  | ok r =>
    simp only [zrtp_InitializeConfig, alloc, bind, Except.bind, pure, Except.pure] at hx
    split at hx
    · cases hx
    · rename_i w2 hm
      cases hx
      obtain ⟨a, c, rfl, hc, hw⟩ := modifyContext_inv _ _ _ _ hm
      have hc0 : ctxOf w.heap a = some c := by
        rw [← ctxOf_append w.heap [.configure cf.new] a (by simp [Obj.resource])]
        exact ctxOf_eq_some.2 hc
      intro b c1 hb
      simp only at hw
      show EngineBound c1
      rw [hw] at hb
      by_cases hba : b = a
      · subst hba
        have hlt := lt_of_getElem? hc
        rw [ctxOf_eq_some, List.getElem?_set_self hlt] at hb
        cases hb
        exact engineBound_configure c _ (h b c hc0)
      · rw [ctxOf_set_ne _ _ hba, ctxOf_append _ _ _ (by simp [Obj.resource])] at hb
        exact h b c1 hb

theorem initialize_live (zr : ZRtp E) (cf : ZrtpConfigure C A) (zc : ZIDCache Z)
    (w w1 : World E C Z) (ctx : Option Addr) (cb : Option Nat) (id : Option String)
    (zidFilename : Option String) (userData : Option Nat) (mitmMode : Int)
    (h : zrtp_initializeZrtpEngine zr cf zc w ctx cb id zidFilename userData mitmMode = .ok w1) :
    ∃ a c s, ctx = some a ∧ id = some s ∧ w.heap[a]? = some (.context c) := by
  cases id with
  | none => cases h
  | some s =>
    simp only [zrtp_initializeZrtpEngine, alloc, bind, Except.bind] at h
    split at h
    · cases h
    · rename_i w2 hm
      obtain ⟨a, c, rfl, hc, -⟩ := modifyContext_inv _ _ _ _ hm
      refine ⟨a, c, s, rfl, rfl, ?_⟩
      have := ctxOf_eq_some.2 hc
      rw [ctxOf_append w.heap _ a (by simp [Obj.resource])] at this
      exact ctxOf_eq_some.1 this

theorem initialize_inv (zr : ZRtp E) (cf : ZrtpConfigure C A) (zc : ZIDCache Z)
    (w : World E C Z) (ctx : Option Addr) (cb : Option Nat) (id : Option String)
    (zidFilename : Option String) (userData : Option Nat) (mitmMode : Int) (h : Inv w.heap) :
    OkOnly (fun w1 => Inv w1.heap)
      (zrtp_initializeZrtpEngine zr cf zc w ctx cb id zidFilename userData mitmMode) := by
  cases hx : zrtp_initializeZrtpEngine zr cf zc w ctx cb id zidFilename userData mitmMode with
  | error f => trivial
  | ok w1 =>
    obtain ⟨a, c, s, rfl, rfl, hc⟩ :=
      initialize_live zr cf zc w w1 _ cb _ zidFilename userData mitmMode hx
    obtain ⟨w2, h1, h2, h3, -, -, -⟩ :=
      initialize_ok zr cf zc w a c cb s zidFilename userData mitmMode hc
    rw [hx] at h1
    cases h1
    intro b c1 hb
    by_cases hba : b = a
    · subst hba
      rw [ctxOf_eq_some, h2] at hb
      cases hb
      exact ⟨by simp, by simp⟩
    · rw [h3 b hba] at hb
      exact h b c1 hb

theorem deleteAndClear_sub (w : World E C Z) (a : Addr) (r : Resource) (p : Option Addr)
    (f : ZrtpContext → ZrtpContext) :
    OkOnly (fun w1 => SubContexts a w.heap w1.heap) (deleteAndClear w (some a) r p f) := by
  cases hx : deleteAndClear w (some a) r p f with
  | error e => trivial
  | ok w1 =>
    cases p with
    | none =>
      cases hx
      exact fun _ _ _ h => h
    | some x =>
      simp only [deleteAndClear, bind, Except.bind] at hx
      split at hx
      · cases hx
      · rename_i v hv
        have h1 := deleteObj_inv _ _ _ _ hv
        obtain ⟨a1, c, ha, -, h2⟩ := modifyContext_inv _ _ _ _ hx
        cases ha
        intro b c1 hb hc1
        show ctxOf w.heap b = some c1
        rw [h2, ctxOf_set_ne _ _ hb, h1] at hc1
        exact (ctxOf_set_freed _ _ _ _ hc1).2

theorem destroy_inv (w : World E C Z) (ctx : Option Addr) (h : Inv w.heap) :
    OkOnly (fun w1 => Inv w1.heap) (zrtp_DestroyWrapper w ctx) := by
  cases hx : zrtp_DestroyWrapper w ctx with
  | error e => trivial
  | ok w4 =>
    cases ctx with
    | none => cases hx; exact h
    | some a =>
      simp only [zrtp_DestroyWrapper, bind, Except.bind] at hx
      split at hx
      · cases hx
      · split at hx
        · cases hx
        · split at hx
          · cases hx
          · split at hx
            · cases hx
            · rename_i w1 h1
              split at hx
              · cases hx
              · rename_i w2 h2
                split at hx
                · cases hx
                · rename_i w3 h3
                  have s1 := okOnly_elim (deleteAndClear_sub _ a _ _ _) h1
                  have s2 := okOnly_elim (deleteAndClear_sub _ a _ _ _) h2
                  have s3 := okOnly_elim (deleteAndClear_sub _ a _ _ _) h3
                  have s4 := deleteObj_inv _ _ _ _ hx
                  intro b c hb
                  rw [s4] at hb
                  obtain ⟨hba, hb3⟩ := ctxOf_set_freed _ _ _ _ hb
                  exact h b c (s1 b c hba (s2 b c hba (s3 b c hba hb3)))

theorem step_inv (zr : ZRtp E) (cf : ZrtpConfigure C A) (zc : ZIDCache Z) (w : World E C Z)
    (call : Api) (h : Inv w.heap) : OkOnly (fun w1 => Inv w1.heap) (step zr cf zc w call) := by
  have same : ∀ {α : Type} (x : Except Fault (α × World E C Z)),
      OkOnly (fun r => SameContexts w.heap r.2.heap) x →
      OkOnly (fun w1 => Inv w1.heap) (Except.map (fun r => r.2) x) := by
    intro α x hx
    rw [okOnly_map]
    refine okOnly_mono (fun r hr => ?_) hx
    intro b c hb
    rw [hr b] at hb
    exact h b c hb
  cases call with
  | CreateWrapper u => exact create_inv w u h
  | InitializeConfig ctx =>
    simp only [step, okOnly_map]
    exact initializeConfig_inv cf w ctx h
  | initializeZrtpEngine ctx cb id f u m => exact initialize_inv zr cf zc w ctx cb id f u m h
  | DestroyWrapper ctx => exact destroy_inv w ctx h
  | control op ctx => exact same _ (facade_heap zr op w ctx)
  | setStandardConfig ctx => exact same _ (config_heap cf w ctx).1
  | setMandatoryOnly ctx => exact same _ (config_heap cf w ctx).2.1
  | addAlgo ctx t algo => exact same _ ((config_heap cf w ctx).2.2.1 t algo)
  | addAlgoAt ctx t algo i => exact same _ ((config_heap cf w ctx).2.2.2.1 t algo i)
  | removeAlgo ctx t algo => exact same _ ((config_heap cf w ctx).2.2.2.2.1 t algo)
  | getNumConfiguredAlgos ctx t => exact same _ ((config_heap cf w ctx).2.2.2.2.2.1 t)
  | getAlgoAt ctx t i => exact same _ ((config_heap cf w ctx).2.2.2.2.2.2.1 t i)
  | containsAlgo ctx t algo => exact same _ ((config_heap cf w ctx).2.2.2.2.2.2.2.1 t algo)
  | setTrustedMitM ctx y => exact same _ ((config_heap cf w ctx).2.2.2.2.2.2.2.2.1 y)
  | isTrustedMitM ctx => exact same _ (config_heap cf w ctx).2.2.2.2.2.2.2.2.2.1
  | setSasSignature ctx y => exact same _ ((config_heap cf w ctx).2.2.2.2.2.2.2.2.2.2.1 y)
  | isSasSignature ctx => exact same _ (config_heap cf w ctx).2.2.2.2.2.2.2.2.2.2.2

theorem run_inv (zr : ZRtp E) (cf : ZrtpConfigure C A) (zc : ZIDCache Z) (calls : List Api) :
    ∀ (w w1 : World E C Z), Inv w.heap → run zr cf zc w calls = .ok w1 → Inv w1.heap := by
  induction calls with
  | nil =>
    intro w w1 h hr
    cases hr
    exact h
  | cons call rest ih =>
    intro w w1 h hr
    simp only [run] at hr
    split at hr
    · rename_i w2 hs
      exact ih w2 w1 (@okOnly_elim _ (fun v => Inv v.heap) _ _ (step_inv zr cf zc w call h) hs) hr
    · cases hr

/-- C6 (amended). In every process state reached from an empty heap by any sequence of public
calls that return, every live context has its engine and its callback bridge present together
or absent together, and whenever they are present its configuration is present too.  (The
configuration may be present alone.) -/
theorem context_invariant (zr : ZRtp E) (cf : ZrtpConfigure C A) (zc : ZIDCache Z)
    (w0 w : World E C Z) (calls : List Api) (h0 : w0.heap = [])
    (h : run zr cf zc w0 calls = .ok w) :
    ∀ (a : Addr) (c : ZrtpContext), w.heap[a]? = some (.context c) → EngineBound c := by
  have hinv : Inv w0.heap := by
    intro a c hc
    rw [h0] at hc
    simp [ctxOf] at hc
  intro a c hc
  exact run_inv zr cf zc calls w0 w hinv h a c (ctxOf_eq_some.2 hc)

/-- C6 (amended) at a concrete input: create, attach a configuration, initialize, start. -/
theorem context_invariant_witness :
    emptyWorld.heap = [] ∧
      ∃ w, run sampleZRtp sampleConfigure sampleZIDCache emptyWorld
          [.CreateWrapper none, .InitializeConfig (some 0),
           .initializeZrtpEngine (some 0) none (some "client") none none 0,
           .control .startZrtpEngine (some 0)] = .ok w ∧
        w.heap[0]? = some (.context
          { configure := some 1, zrtpEngine := some 3, zrtpCallback := some 2,
            userData := none }) ∧
        EngineBound
          { configure := some 1, zrtpEngine := some 3, zrtpCallback := some 2,
            userData := none } :=
  ⟨rfl, _, rfl, rfl,
    context_invariant sampleZRtp sampleConfigure sampleZIDCache emptyWorld _
      [.CreateWrapper none, .InitializeConfig (some 0),
       .initializeZrtpEngine (some 0) none (some "client") none none 0,
       .control .startZrtpEngine (some 0)] rfl rfl 0 _ rfl⟩

/-- C6 as stated fails: after `zrtp_CreateWrapper` and `zrtp_InitializeConfig` the context has
its configuration present while engine and callback bridge are absent. -/
theorem config_only_reachable :
    ∃ w c, run sampleZRtp sampleConfigure sampleZIDCache emptyWorld
        [.CreateWrapper none, .InitializeConfig (some 0)] = .ok w ∧
      w.heap[0]? = some (.context c) ∧
      c.configure = some 1 ∧ c.zrtpEngine = none ∧ c.zrtpCallback = none ∧
      ¬ AllOrNothing c :=
  ⟨_, _, rfl, rfl, rfl, rfl, rfl, by simp [AllOrNothing]⟩

end ZrtpCWrapper
